import Mathlib

/-!
Verification of the gogogate2/ismartgate client library against its
natural-language specification.

Modelling conventions:
* A Python `str` is a `List Nat` of Unicode code points; Python `bytes` is a
  `List Nat` whose members are below 256.
* Pure functions from the source are translated directly; fallible code
  returns `Option` or `Except`.
* External library primitives that the source calls (AES-CBC from
  PyCryptodome, base64, SHA-1, the XML parser) are not part of this
  repository; they are passed in as explicit function parameters and the
  theorems assume only their documented behaviour.
-/

deriving instance DecidableEq for Except

namespace Gogogate2

/-- Convert a Lean string literal to the code-point list model of a Python
string. -/
def codes (s : String) : List Nat := s.data.map Char.toNat

/-! ## UTF-8 encoding and decoding

The source calls `str.encode("utf-8")` and `bytes.decode("utf-8")`.  These are
modelled by `utf8Encode` / `utf8Decode` below.  The decoder accepts the image
of the encoder and rejects truncated sequences and bad continuation bytes; it
does not reproduce every rejection of Python's strict decoder (overlong forms,
surrogates), which no theorem below depends on. -/

/-- UTF-8 encoding of one code point (the standard 1-4 byte forms). -/
def utf8EncodeChar (c : Nat) : List Nat :=
  if c < 0x80 then [c]
  else if c < 0x800 then [0xC0 + c / 64, 0x80 + c % 64]
  else if c < 0x10000 then
    [0xE0 + c / 4096, 0x80 + (c / 64) % 64, 0x80 + c % 64]
  else
    [0xF0 + c / 262144, 0x80 + (c / 4096) % 64, 0x80 + (c / 64) % 64, 0x80 + c % 64]

/-- UTF-8 encoding of a whole string (`str.encode("utf-8")`). -/
def utf8Encode (s : List Nat) : List Nat :=
  (s.map utf8EncodeChar).flatten

/-- Continuation reading for a 2-byte UTF-8 sequence with lead byte `b0`. -/
def utf8Cont2 (b0 : Nat) : List Nat → Option (Nat × List Nat)
  | b1 :: rest2 =>
    if 0xC2 ≤ b0 ∧ 0x80 ≤ b1 ∧ b1 < 0xC0 then
      some ((b0 - 0xC0) * 64 + (b1 - 0x80), rest2)
    else none
  | [] => none

/-- Continuation reading for a 3-byte UTF-8 sequence with lead byte `b0`. -/
def utf8Cont3 (b0 : Nat) : List Nat → Option (Nat × List Nat)
  | b1 :: b2 :: rest3 =>
    if (0x80 ≤ b1 ∧ b1 < 0xC0) ∧ (0x80 ≤ b2 ∧ b2 < 0xC0) then
      some ((b0 - 0xE0) * 4096 + (b1 - 0x80) * 64 + (b2 - 0x80), rest3)
    else none
  | _ => none

/-- Continuation reading for a 4-byte UTF-8 sequence with lead byte `b0`. -/
def utf8Cont4 (b0 : Nat) : List Nat → Option (Nat × List Nat)
  | b1 :: b2 :: b3 :: rest4 =>
    if (0x80 ≤ b1 ∧ b1 < 0xC0) ∧ (0x80 ≤ b2 ∧ b2 < 0xC0) ∧ (0x80 ≤ b3 ∧ b3 < 0xC0) then
      some ((b0 - 0xF0) * 262144 + (b1 - 0x80) * 4096 + (b2 - 0x80) * 64 + (b3 - 0x80), rest4)
    else none
  | _ => none

/-- Decode one UTF-8 scalar from the front of a byte string, returning the
code point and the remaining bytes. -/
def utf8DecodeOne : List Nat → Option (Nat × List Nat)
  | [] => none
  | b0 :: rest =>
    if b0 < 0x80 then some (b0, rest)
    else if b0 < 0xE0 then utf8Cont2 b0 rest
    else if b0 < 0xF0 then utf8Cont3 b0 rest
    else if b0 < 0xF5 then utf8Cont4 b0 rest
    else none

/-- Fuel-driven decoding loop; each step consumes at least one byte, so fuel
equal to the byte length always suffices. -/
def utf8DecodeLoop : Nat → List Nat → Option (List Nat)
  | _, [] => some []
  | 0, _ :: _ => none
  | fuel + 1, b0 :: rest =>
    match utf8DecodeOne (b0 :: rest) with
    | none => none
    | some cr => (utf8DecodeLoop fuel cr.2).map (cr.1 :: ·)

/-- UTF-8 decoding (`bytes.decode("utf-8")`); `none` models
`UnicodeDecodeError`.  The decoder accepts the image of `utf8Encode` and
rejects truncated sequences and bad continuation bytes; it does not reproduce
every rejection of Python's strict decoder (overlong forms, surrogates),
which no theorem below depends on. -/
def utf8Decode (bs : List Nat) : Option (List Nat) := utf8DecodeLoop bs.length bs

/-- A code point a Python string may hold and pass through `encode("utf-8")`
without error: a Unicode scalar value (surrogates excluded). -/
def ValidChar (c : Nat) : Prop := c < 0xD800 ∨ (0xE000 ≤ c ∧ c < 0x110000)

instance (c : Nat) : Decidable (ValidChar c) := by
  unfold ValidChar; infer_instance

/-! ## ApiCipher: PKCS5 padding (`src/gogogate2_api/__init__.py` lines 79-90) -/

/-- Translation of `ApiCipher.pad_pkcs5`: append `N` copies of `chr(N)` where
`N = block_size - len(data) % block_size` and the block size is 16. -/
def pad_pkcs5 (data : List Nat) : List Nat :=
  data ++ List.replicate (16 - data.length % 16) (16 - data.length % 16)

/-- Translation of `ApiCipher.unpad_pkcs5`: `data[0 : -data[-1]]`.  In Python a
final byte `0` makes the slice `data[0:0] = b""`, and a final byte larger than
the length also yields `b""`; `data.take` reproduces the latter by clamping.
Python raises `IndexError` on empty input; the one call site (`decrypt`)
branches on emptiness explicitly, so totalising with `[]` here is unobservable. -/
def unpad_pkcs5 (data : List Nat) : List Nat :=
  match data.getLast? with
  | none => []
  | some n => if n = 0 then [] else data.take (data.length - n)

/-! ## External cryptographic primitives

`ApiCipher.encrypt`/`decrypt` call PyCryptodome's AES-CBC and the standard
library's base64 codec.  Those are not code of this repository; they enter the
model as parameters, and the theorems assume only their documented
behaviour (`ExtPrimitivesOK`). -/

/-- The external primitives used by `ApiCipher`: AES-CBC encryption and
decryption (`key → iv → data → data`) and base64 encoding/decoding.
`b64decode` returns `none` for `binascii.Error` (a `ValueError`). -/
structure ExtPrimitives where
  aesEncCbc : List Nat → List Nat → List Nat → List Nat
  aesDecCbc : List Nat → List Nat → List Nat → List Nat
  b64encode : List Nat → List Nat
  b64decode : List Nat → Option (List Nat)

/-- Documented behaviour of the external primitives: CBC decryption inverts
encryption under the same key and IV, encryption preserves length and produces
bytes, base64 decoding inverts encoding, and base64 text is ASCII. -/
structure ExtPrimitivesOK (E : ExtPrimitives) : Prop where
  aes_dec_enc : ∀ k iv d, E.aesDecCbc k iv (E.aesEncCbc k iv d) = d
  aes_enc_length : ∀ k iv d, (E.aesEncCbc k iv d).length = d.length
  aes_enc_range : ∀ k iv d, (∀ b ∈ d, b < 256) → ∀ b ∈ E.aesEncCbc k iv d, b < 256
  b64_dec_enc : ∀ bs, (∀ b ∈ bs, b < 256) → E.b64decode (E.b64encode bs) = some bs
  b64_ascii : ∀ bs, (∀ b ∈ bs, b < 256) → ∀ b2 ∈ E.b64encode bs, b2 < 0x80

/-- Python exception classes that escape the cipher layer.  `valueError`
covers `ValueError` and its subclasses (`binascii.Error`,
`UnicodeDecodeError`, bad key/IV/block lengths); `indexError` is `IndexError`
(raised by `unpad_pkcs5` on empty input) and `parseError` is
`xml.etree.ElementTree.ParseError`; neither of those is a `ValueError`. -/
inductive PyErrKind where
  | valueError
  | indexError
  | parseError
deriving DecidableEq

/-- The IV string `encrypt` pads and truncates: Python's
`init_vector or uuid.uuid4().hex`, where `genIv` stands for the generated
hex identifier (truthiness also replaces an empty `init_vector`). -/
def ivSourceOf (initVector : Option (List Nat)) (genIv : List Nat) : List Nat :=
  match initVector with
  | some iv => if iv = [] then genIv else iv
  | none => genIv

/-- Translation of `ApiCipher.encrypt`.  `keyBytes` is `self._key_bytes`;
`genIv` stands for the `uuid.uuid4().hex` value used when `init_vector` is
absent.  `none` models an exception escaping (`cipher.encrypt` on input that
is not a multiple of the block, or `str(..., "utf-8")` on invalid bytes). -/
def encrypt (E : ExtPrimitives) (keyBytes : List Nat) (content : List Nat)
    (initVector : Option (List Nat)) (genIv : List Nat) : Option (List Nat) :=
  if (utf8Encode (pad_pkcs5 content)).length % 16 ≠ 0 then none
  else
    utf8Decode ((utf8Encode (pad_pkcs5 (ivSourceOf initVector genIv))).take 16
      ++ E.b64encode (E.aesEncCbc keyBytes
          ((utf8Encode (pad_pkcs5 (ivSourceOf initVector genIv))).take 16)
          (utf8Encode (pad_pkcs5 content))))

/-- Translation of `ApiCipher.decrypt`.  The IV is the first 16 *bytes* of the
UTF-8 encoding of the input, while the base64 payload is the input minus its
first 16 *characters* — faithfully reproducing `content.encode("utf-8")[:16]`
versus `content[AES.block_size:]`. -/
def decrypt (E : ExtPrimitives) (keyBytes : List Nat) (content : List Nat) :
    Except PyErrKind (List Nat) :=
  if ((utf8Encode content).take 16).length ≠ 16 then
    -- AES.new raises ValueError for an IV shorter than 16 bytes.
    .error .valueError
  else
    match E.b64decode (content.drop 16) with
    | none => .error .valueError
    | some encryptedBytes =>
      if encryptedBytes.length % 16 ≠ 0 then
        -- cipher.decrypt raises ValueError when data is not block-aligned.
        .error .valueError
      else if E.aesDecCbc keyBytes ((utf8Encode content).take 16) encryptedBytes = [] then
        -- unpad_pkcs5 evaluates data[-1], an IndexError on empty bytes.
        .error .indexError
      else
        match utf8Decode (unpad_pkcs5
            (E.aesDecCbc keyBytes ((utf8Encode content).take 16) encryptedBytes)) with
        | none => .error .valueError
        | some s => .ok s

/-! ## Key derivation (`ISmartGateApiCipher.__init__`, lines 108-126)

SHA-1 is library code; it enters as a parameter `sha1hex` mapping a byte
string to its 40-character lowercase hex digest. -/

/-- Python `str.lower()` restricted to ASCII letters.  The usernames and
passwords the derivation is applied to are ASCII; the full Unicode case map
is not modelled. -/
def pyLower (s : List Nat) : List Nat :=
  s.map (fun c => if 65 ≤ c ∧ c ≤ 90 then c + 32 else c)

/-- Translation of `RAW_TOKEN_FORMAT % self._username.lower()`:
`username.lower() + "@ismartgate"`. -/
def ismartgateRawToken (username : List Nat) : List Nat :=
  pyLower username ++ codes "@ismartgate"

/-- Translation of the token computation in `ISmartGateApiCipher.__init__`:
`sha1(raw_token.encode("utf-8")).hexdigest()`. -/
def ismartgateToken (sha1hex : List Nat → List Nat) (username : List Nat) : List Nat :=
  sha1hex (utf8Encode (ismartgateRawToken username))

/-- Translation of the key computation in `ISmartGateApiCipher.__init__`:
the f-string
`"{d[32:36]}a{d[7:10]}!{d[18:21]}*#{d[24:26]}"` applied to the hex digest `d`
of `(username.lower() + password).encode()`. -/
def ismartgateKey (sha1hex : List Nat → List Nat) (username password : List Nat) : List Nat :=
  let d := sha1hex (utf8Encode (pyLower username ++ password))
  ((d.drop 32).take 4) ++ [97] ++ ((d.drop 7).take 3) ++ [33]
    ++ ((d.drop 18).take 3) ++ [42, 35] ++ ((d.drop 24).take 2)

/-! ## XML element model and field decoding (`src/gogogate2_api/common.py`)

`xml.etree.ElementTree.Element` is modelled by `XmlElem`: a tag, optional
text, and child elements.  `Element.find` searches direct children only. -/

/-- Model of `xml.etree.ElementTree.Element`. -/
inductive XmlElem where
  | mk (tag : List Nat) (text : Option (List Nat)) (children : List XmlElem)

/-- Tag of an element. -/
def XmlElem.tag : XmlElem → List Nat
  | .mk t _ _ => t

/-- Text of an element (`Element.text`; `none` models Python `None`). -/
def XmlElem.textOf : XmlElem → Option (List Nat)
  | .mk _ t _ => t

/-- Children of an element. -/
def XmlElem.childrenOf : XmlElem → List XmlElem
  | .mk _ _ c => c

/-- Model of `Element.find(tag)`: the first direct child with the given tag. -/
def XmlElem.find (e : XmlElem) (t : List Nat) : Option XmlElem :=
  e.childrenOf.find? (fun c => decide (c.tag = t))

/-- Errors raised by the decoding helpers in `common.py`.
`unexpectedType value expected` is `UnexpectedTypeException(value, expected)`
where `value = none` models Python `None`; `valueError v enum` is the plain
`ValueError` that `Enum(value)` raises for an invalid member value. -/
inductive DecodeErr where
  | tagNotFound (tag : List Nat)
  | textEmpty (tag : List Nat)
  | unexpectedType (value : Option (List Nat)) (expected : List Nat)
  | valueError (value : List Nat) (enumName : List Nat)
deriving DecidableEq

/-- Python whitespace for `str.strip()` (ASCII portion). -/
def isPySpace (c : Nat) : Bool := c = 32 ∨ (9 ≤ c ∧ c ≤ 13)

/-- Model of `str.strip()`. -/
def pyStrip (s : List Nat) : List Nat :=
  ((s.dropWhile isPySpace).reverse.dropWhile isPySpace).reverse

/-- Value of a nonempty all-digit string. -/
def digitsVal (ds : List Nat) : Option Nat :=
  if ds ≠ [] ∧ ds.all (fun c => 48 ≤ c ∧ c ≤ 57) then
    some (ds.foldl (fun a c => a * 10 + (c - 48)) 0)
  else none

/-- Model of Python `int(str)`: surrounding whitespace, an optional sign and a
nonempty digit string (digit-group underscores are not modelled). `none` is
the `ValueError` the constructor raises. -/
def pyInt (s : List Nat) : Option Int :=
  match pyStrip s with
  | 43 :: ds => (digitsVal ds).map Int.ofNat
  | 45 :: ds => (digitsVal ds).map (fun n => -(n : Int))
  | ds => (digitsVal ds).map Int.ofNat

/-- Translation of `int_or_none` applied to an optional string, via
`value_or_none(value, int)`: `None` stays `None` and a failed conversion
becomes `None`. -/
def int_or_none (v : Option (List Nat)) : Option Int :=
  match v with
  | none => none
  | some s => pyInt s

/-- Translation of `int_or_raise`, i.e. `enforce_type(int_or_none(value), int)`.
When the conversion fails, `int_or_none` has already collapsed the value to
`None`, so the raised `UnexpectedTypeException` carries `None` — not the raw
text. -/
def int_or_raise (v : Option (List Nat)) : Except DecodeErr Int :=
  match int_or_none v with
  | some n => .ok n
  | none => .error (.unexpectedType none (codes "int"))

/-- Translation of `element_or_none`. -/
def element_or_none (element : Option XmlElem) (tag : List Nat) : Option XmlElem :=
  match element with
  | none => none
  | some e => e.find tag

/-- Translation of `element_or_raise`. -/
def element_or_raise (element : Option XmlElem) (tag : List Nat) : Except DecodeErr XmlElem :=
  match element_or_none element tag with
  | none => .error (.tagNotFound tag)
  | some e => .ok e

/-- Translation of `element_text_or_none`. -/
def element_text_or_none (element : Option XmlElem) (tag : List Nat) : Option (List Nat) :=
  match element_or_none element tag with
  | none => none
  | some e =>
    match e.textOf with
    | none => none
    | some t => some (pyStrip t)

/-- Translation of `element_text_or_raise`. -/
def element_text_or_raise (element : Option XmlElem) (tag : List Nat) :
    Except DecodeErr (List Nat) :=
  match element_or_raise element tag with
  | .error e => .error e
  | .ok el =>
    match el.textOf with
    | none => .error (.textEmpty tag)
    | some t => .ok (pyStrip t)

/-- Translation of `element_int_or_raise`. -/
def element_int_or_raise (element : Option XmlElem) (tag : List Nat) :
    Except DecodeErr Int :=
  match element_or_raise element tag with
  | .error e => .error e
  | .ok el =>
    match el.textOf with
    | none => .error (.textEmpty tag)
    | some t => int_or_raise (some (pyStrip t))

/-- Door status enum (`DoorStatus` in `common.py`). -/
inductive DoorStatus where
  | closed
  | opened
  | undefined
deriving DecidableEq

/-- Door mode enum (`DoorMode` in `common.py`). -/
inductive DoorMode where
  | garage
  | pulse
  | on_off
deriving DecidableEq

/-- Translation of `enum_or_raise(value, DoorStatus)`: `None` raises
`UnexpectedTypeException(None, DoorStatus)`; an invalid string raises the
plain `ValueError` coming from `Enum.__call__`. -/
def enum_or_raise_door_status (value : Option (List Nat)) : Except DecodeErr DoorStatus :=
  match value with
  | none => .error (.unexpectedType none (codes "DoorStatus"))
  | some s =>
    if s = codes "closed" then .ok .closed
    else if s = codes "opened" then .ok .opened
    else if s = codes "undefined" then .ok .undefined
    else .error (.valueError s (codes "DoorStatus"))

/-- Translation of `enum_or_raise(value, DoorMode)`. -/
def enum_or_raise_door_mode (value : Option (List Nat)) : Except DecodeErr DoorMode :=
  match value with
  | none => .error (.unexpectedType none (codes "DoorMode"))
  | some s =>
    if s = codes "garage" then .ok .garage
    else if s = codes "pulse" then .ok .pulse
    else if s = codes "onoff" then .ok .on_off
    else .error (.valueError s (codes "DoorMode"))

/-- Field set of `AbstractDoor` (and of `GogoGate2Door`, which adds nothing).
`temperature` is a rational; parsing of Python floats is passed in as a
parameter where needed. -/
structure AbstractDoorData where
  door_id : Int
  permission : Bool
  name : Option (List Nat)
  mode : DoorMode
  gate : Bool
  status : DoorStatus
  sensor : Bool
  camera : Bool
  events : Option Int
  sensorid : Option (List Nat)
  temperature : Option ℚ
deriving DecidableEq

/-- Field set of `ISmartGateDoor`: `AbstractDoor` plus `enabled`, `apicode`
and `customimage`. -/
structure ISmartGateDoorData extends AbstractDoorData where
  enabled : Bool
  apicode : List Nat
  customimage : Bool
deriving DecidableEq

/-- Translation of `Outputs`. -/
structure Outputs where
  output1 : Bool
  output2 : Bool
  output3 : Bool
deriving DecidableEq

/-- Translation of `Network`. -/
structure NetworkData where
  ip : List Nat
deriving DecidableEq

/-- Translation of `Wifi`. -/
structure WifiData where
  SSID : Option (List Nat)
  linkquality : Option (List Nat)
  signal : Option (List Nat)
deriving DecidableEq

/-- Translation of `GogoGate2InfoResponse` (the `AbstractInfoResponse` fields
plus the GogoGate2-specific ones).  The reconciler theorems below are stated
over this snapshot type; the source's generic `AbstractGateApi` logic reads
only `door1`..`door3` from it. -/
structure GogoGate2InfoResponse where
  user : List Nat
  gogogatename : List Nat
  model : List Nat
  apiversion : List Nat
  remoteaccessenabled : Bool
  remoteaccess : List Nat
  firmwareversion : List Nat
  apicode : List Nat
  door1 : AbstractDoorData
  door2 : AbstractDoorData
  door3 : AbstractDoorData
  outputs : Outputs
  network : NetworkData
  wifi : WifiData
deriving DecidableEq

/-- Translation of `wifi_or_raise`. -/
def wifi_or_raise (element : XmlElem) : WifiData :=
  { SSID := element_text_or_none (some element) (codes "SSID")
    linkquality := element_text_or_none (some element) (codes "linkquality")
    signal := element_text_or_none (some element) (codes "signal") }

/-- Translation of `network_or_raise`. -/
def network_or_raise (element : XmlElem) : Except DecodeErr NetworkData := do
  let ip ← element_text_or_raise (some element) (codes "ip")
  return { ip := ip }

/-- Translation of `outputs_or_raise`: each output is true exactly when its
trimmed text lowercases to `"on"`. -/
def outputs_or_raise (element : XmlElem) : Except DecodeErr Outputs := do
  let t1 ← element_text_or_raise (some element) (codes "output1")
  let t2 ← element_text_or_raise (some element) (codes "output2")
  let t3 ← element_text_or_raise (some element) (codes "output3")
  return { output1 := decide (pyLower t1 = codes "on")
           output2 := decide (pyLower t2 = codes "on")
           output3 := decide (pyLower t3 = codes "on") }

/-- Translation of `gogogate2_door_or_raise`.  `pyFloat` models the library
float constructor used through `float_or_none` for the temperature leaf. -/
def gogogate2_door_or_raise (pyFloat : List Nat → Option ℚ) (door_id : Int)
    (element : XmlElem) : Except DecodeErr AbstractDoorData := do
  let temp : Option ℚ :=
    match element_text_or_none (some element) (codes "temperature") with
    | none => none
    | some t => pyFloat t
  let permissionText ← element_text_or_raise (some element) (codes "permission")
  let modeText ← element_text_or_raise (some element) (codes "mode")
  let mode ← enum_or_raise_door_mode (some modeText)
  let statusText ← element_text_or_raise (some element) (codes "status")
  let status ← enum_or_raise_door_status (some statusText)
  let sensorText ← element_text_or_raise (some element) (codes "sensor")
  let cameraText ← element_text_or_raise (some element) (codes "camera")
  return { door_id := door_id
           permission := decide (pyLower permissionText = codes "yes")
           name := element_text_or_none (some element) (codes "name")
           gate := false
           mode := mode
           status := status
           sensor := decide (pyLower sensorText = codes "yes")
           sensorid := element_text_or_none (some element) (codes "sensorid")
           camera := decide (pyLower cameraText = codes "yes")
           events := int_or_none (element_text_or_none (some element) (codes "events"))
           temperature :=
             match temp with
             | none => none
             | some t => if t < -100000 then none else some t }

/-- Translation of `ismartgate_door_or_raise`. -/
def ismartgate_door_or_raise (pyFloat : List Nat → Option ℚ) (door_id : Int)
    (element : XmlElem) : Except DecodeErr ISmartGateDoorData := do
  let temp : Option ℚ :=
    match element_text_or_none (some element) (codes "temperature") with
    | none => none
    | some t => pyFloat t
  let enabledText ← element_text_or_raise (some element) (codes "enabled")
  let apicode ← element_text_or_raise (some element) (codes "apicode")
  let customimageText ← element_text_or_raise (some element) (codes "customimage")
  let permissionText ← element_text_or_raise (some element) (codes "permission")
  let gateText ← element_text_or_raise (some element) (codes "gate")
  let modeText ← element_text_or_raise (some element) (codes "mode")
  let mode ← enum_or_raise_door_mode (some modeText)
  let statusText ← element_text_or_raise (some element) (codes "status")
  let status ← enum_or_raise_door_status (some statusText)
  let sensorText ← element_text_or_raise (some element) (codes "sensor")
  let cameraText ← element_text_or_raise (some element) (codes "camera")
  return { door_id := door_id
           enabled := decide (pyLower enabledText = codes "yes")
           apicode := apicode
           customimage := decide (pyLower customimageText = codes "yes")
           permission := decide (pyLower permissionText = codes "yes")
           name := element_text_or_none (some element) (codes "name")
           gate := decide (pyLower gateText = codes "yes")
           mode := mode
           status := status
           sensor := decide (pyLower sensorText = codes "yes")
           sensorid := element_text_or_none (some element) (codes "sensorid")
           camera := decide (pyLower cameraText = codes "yes")
           events := int_or_none (element_text_or_none (some element) (codes "events"))
           temperature :=
             match temp with
             | none => none
             | some t => if t < -100000 then none else some t }

/-- Translation of `element_to_gogogate2_info_response`.  Note the
`remoteaccessenabled` comparison is `== "1"` with no lowercasing. -/
def element_to_gogogate2_info_response (pyFloat : List Nat → Option ℚ)
    (element : XmlElem) : Except DecodeErr GogoGate2InfoResponse := do
  let user ← element_text_or_raise (some element) (codes "user")
  let gogogatename ← element_text_or_raise (some element) (codes "gogogatename")
  let model ← element_text_or_raise (some element) (codes "model")
  let apiversion ← element_text_or_raise (some element) (codes "apiversion")
  let remoteaccessenabledText ← element_text_or_raise (some element) (codes "remoteaccessenabled")
  let remoteaccess ← element_text_or_raise (some element) (codes "remoteaccess")
  let firmwareversion ← element_text_or_raise (some element) (codes "firmwareversion")
  let apicode ← element_text_or_raise (some element) (codes "apicode")
  let door1Elem ← element_or_raise (some element) (codes "door1")
  let door1 ← gogogate2_door_or_raise pyFloat 1 door1Elem
  let door2Elem ← element_or_raise (some element) (codes "door2")
  let door2 ← gogogate2_door_or_raise pyFloat 2 door2Elem
  let door3Elem ← element_or_raise (some element) (codes "door3")
  let door3 ← gogogate2_door_or_raise pyFloat 3 door3Elem
  let outputsElem ← element_or_raise (some element) (codes "outputs")
  let outputs ← outputs_or_raise outputsElem
  let networkElem ← element_or_raise (some element) (codes "network")
  let network ← network_or_raise networkElem
  let wifiElem ← element_or_raise (some element) (codes "wifi")
  return { user := user
           gogogatename := gogogatename
           model := model
           apiversion := apiversion
           remoteaccessenabled := decide (remoteaccessenabledText = codes "1")
           remoteaccess := remoteaccess
           firmwareversion := firmwareversion
           apicode := apicode
           door1 := door1
           door2 := door2
           door3 := door3
           outputs := outputs
           network := network
           wifi := wifi_or_raise wifiElem }

/-- Translation of `element_to_api_error`: decode `errorcode` (as an int) and
`errormsg` from the error element.  Python evaluates the `code=` argument
before `message=`. -/
def element_to_api_error (element : XmlElem) : Except DecodeErr (Int × List Nat) := do
  let codeText ← element_text_or_raise (some element) (codes "errorcode")
  let code ← int_or_raise (some codeText)
  let msg ← element_text_or_raise (some element) (codes "errormsg")
  return (code, msg)

/-! ## Transport (`AbstractGateApi._async_request`, lines 195-238) -/

/-- Typed exceptions raised for device error codes.  `genericApiError` is the
fallback `ApiError` used when the code is absent from the family's map. -/
inductive ExcKind where
  | credentialsNotSet
  | credentialsIncorrect
  | invalidOption
  | invalidApiCode
  | doorNotSet
  | genericApiError
deriving DecidableEq

/-- Translation of `GogoGate2Api._get_exception_map` with the numeric codes
from `const.GogoGate2ApiErrorCode`. -/
def gogogate2ExceptionMap : List (Int × ExcKind) :=
  [(2, .credentialsNotSet), (1, .credentialsIncorrect), (9, .invalidOption),
   (18, .invalidApiCode), (8, .doorNotSet)]

/-- Translation of `ISmartGateApi._get_exception_map` with the numeric codes
from `const.ISmartGateApiErrorCode`. -/
def ismartgateExceptionMap : List (Int × ExcKind) :=
  [(22, .credentialsNotSet), (11, .credentialsIncorrect), (9, .invalidOption),
   (10, .invalidApiCode), (8, .doorNotSet)]

/-- Lookup in an exception map (`dict.get`). -/
def excMapLookup (m : List (Int × ExcKind)) (code : Int) : Option ExcKind :=
  (m.find? (fun e => decide (e.1 = code))).map (·.2)

/-- Observable outcome of `_async_request` once the HTTP body is in hand. -/
inductive RequestOutcome where
  | ok (root : XmlElem)
  | apiError (exc : ExcKind) (code : Int) (message : List Nat)
  | decodeError (e : DecodeErr)
  | pythonError (e : PyErrKind)

/-- Translation of the response-handling tail of `_async_request`
(lines 220-238): try to decrypt the body (only `ValueError` is caught; the
raw body is then used as plaintext), parse it, and check
`if error_element:` — Python `Element` truthiness, which is true only when
the element has at least one child.  `parse` stands for
`defusedxml.ElementTree.fromstring`; `none` is its `ParseError`. -/
def handleResponse (E : ExtPrimitives) (keyBytes : List Nat)
    (excMap : List (Int × ExcKind)) (parse : List Nat → Option XmlElem)
    (response_raw : List Nat) : RequestOutcome :=
  let response_text : Except PyErrKind (List Nat) :=
    match decrypt E keyBytes response_raw with
    | .ok s => .ok s
    | .error .valueError => .ok response_raw
    | .error e => .error e
  match response_text with
  | .error e => .pythonError e
  | .ok txt =>
    match parse txt with
    | none => .pythonError .parseError
    | some root =>
      match root.find (codes "error") with
      | some errEl =>
        if errEl.childrenOf.length ≠ 0 then
          match element_to_api_error errEl with
          | .ok pair => .apiError ((excMapLookup excMap pair.1).getD .genericApiError) pair.1 pair.2
          | .error e => .decodeError e
        else .ok root
      | none => .ok root

/-! ## Door status reconciler (`_get_door_statuses`, `_async_set_door_status`)

The types `TransitionDoorStatus`, `AllDoorStatus`, `CachedTransitionDoorStatus`
and the constants `OPEN_DOOR_STATUSES` / `CLOSE_DOOR_STATUSES` are imported by
`__init__.py` from `common.py` but are absent from the source snapshot; they
are modelled from the spec below.  Times are integers (a fixed arbitrary unit);
`now` stands for `datetime.utcnow()`, assumed constant within one call. -/

/-- Modelled from the spec: the synthetic transitional statuses
`TransitionDoorStatus` (missing from `common.py` in this snapshot): the
client-local `opening`/`closing` view. -/
inductive TransitionDoorStatus where
  | opening
  | closing
deriving DecidableEq

/-- Modelled from the spec: `AllDoorStatus = Union[DoorStatus,
TransitionDoorStatus]` (missing from `common.py` in this snapshot). -/
inductive AllDoorStatus where
  | raw (s : DoorStatus)
  | transitional (t : TransitionDoorStatus)
deriving DecidableEq

/-- Modelled from the spec: `OPEN_DOOR_STATUSES` (missing from `common.py`):
the statuses that count as already open or already heading to open. -/
def OPEN_DOOR_STATUSES : List AllDoorStatus :=
  [.raw .opened, .transitional .opening]

/-- Modelled from the spec: `CLOSE_DOOR_STATUSES` (missing from `common.py`). -/
def CLOSE_DOOR_STATUSES : List AllDoorStatus :=
  [.raw .closed, .transitional .closing]

/-- Modelled from the spec: `CachedTransitionDoorStatus` (missing from
`common.py`): the `TransitionEntry` of the spec, with `activated` the
recording timestamp and `target_status` the requested end state. -/
structure CachedTransitionDoorStatus where
  door_id : Int
  activated : Int
  transition_status : TransitionDoorStatus
  target_status : DoorStatus
deriving DecidableEq

/-- The `_transition_door_status` dictionary, as an association list with
unique keys. -/
abbrev TransitionCache := List (Int × CachedTransitionDoorStatus)

/-- Model of `dict.get`. -/
def cacheGet (cache : TransitionCache) (k : Int) : Option CachedTransitionDoorStatus :=
  (cache.find? (fun e => decide (e.1 = k))).map (·.2)

/-- Model of `dict[k] = v`: replace any entry for `k`, else add one. -/
def cacheSet (cache : TransitionCache) (k : Int) (v : CachedTransitionDoorStatus) :
    TransitionCache :=
  (cache.filter (fun e => decide (e.1 ≠ k))) ++ [(k, v)]

/-- Model of `dict.get` on the computed statuses dictionary. -/
def statusGet (statuses : List (Int × AllDoorStatus)) (k : Int) : Option AllDoorStatus :=
  (statuses.find? (fun e => decide (e.1 = k))).map (·.2)

/-- Translation of `get_doors`: `(response.door1, response.door2,
response.door3)`. -/
def get_doors (response : GogoGate2InfoResponse) : List AbstractDoorData :=
  [response.door1, response.door2, response.door3]

/-- Truthiness of `door.name` (`Optional[str]`): `None` and `""` are falsy. -/
def nameTruthy (name : Option (List Nat)) : Bool :=
  match name with
  | none => false
  | some s => decide (s ≠ [])

/-- Translation of `get_configured_doors`: the doors whose `name` is truthy. -/
def get_configured_doors (response : GogoGate2InfoResponse) : List AbstractDoorData :=
  (get_doors response).filter (fun door => nameTruthy door.name)

/-- Translation of the cache-cleaning loop in `_get_door_statuses` (lines
353-361): delete every entry with `now - activated >= timeout`.  Deleting
matching keys from the dict is expressed as a filter. -/
def purgeExpired (cache : TransitionCache) (now timeout : Int) : TransitionCache :=
  cache.filter (fun e => decide (now - e.2.activated < timeout))

/-- Translation of `AbstractGateApi._get_door_statuses` (lines 348-376):
purge expired transition entries, then report, per configured door, the
cached transitional status when one survives and its `target_status` differs
from the door's raw status, and the raw status otherwise.  Returns the purged
cache (the method mutates `self._transition_door_status`) together with the
statuses dictionary. -/
def _get_door_statuses (cache : TransitionCache) (now timeout : Int)
    (info : GogoGate2InfoResponse) (use_transitional_status : Bool) :
    TransitionCache × List (Int × AllDoorStatus) :=
  let cache2 := purgeExpired cache now timeout
  (cache2,
   (get_configured_doors info).map (fun door =>
     (door.door_id,
      match cacheGet cache2 door.door_id with
      | some ts =>
        if use_transitional_status ∧ ts.target_status ≠ door.status then
          .transitional ts.transition_status
        else .raw door.status
      | none => .raw door.status)))

/-- Observable result of `_async_set_door_status`: the returned boolean, the
two possible outbound requests, and the cache afterwards. -/
structure SetDoorStatusResult where
  sent : Bool
  info_fetched : Bool
  activate_called : Bool
  cache : TransitionCache
deriving DecidableEq

/-- Translation of `AbstractGateApi._async_set_door_status` (lines 287-320).
`info` is the snapshot `await self.async_info()` would fetch; fetching it and
calling activate are recorded as flags rather than performed. -/
def _async_set_door_status (cache : TransitionCache) (now timeout : Int)
    (info : GogoGate2InfoResponse) (door_id : Int) (target_door_status : DoorStatus)
    (consider_transitional_states : Bool) : SetDoorStatusResult :=
  if target_door_status = .undefined then
    { sent := false, info_fetched := false, activate_called := false, cache := cache }
  else
    let p := _get_door_statuses cache now timeout info consider_transitional_states
    let current_door_status := statusGet p.2 door_id
    let result_door_statuses :=
      if target_door_status = .opened then OPEN_DOOR_STATUSES else CLOSE_DOOR_STATUSES
    let transitional_door_status :=
      if target_door_status = .opened then TransitionDoorStatus.opening
      else TransitionDoorStatus.closing
    match current_door_status with
    | none =>
      -- `not current_door_status`: Python enum members are truthy, so this
      -- branch is exactly "door absent from the statuses dict".
      { sent := false, info_fetched := true, activate_called := false, cache := p.1 }
    | some cur =>
      if cur ∈ result_door_statuses then
        { sent := false, info_fetched := true, activate_called := false, cache := p.1 }
      else
        { sent := true, info_fetched := true, activate_called := true,
          cache := cacheSet p.1 door_id
            { door_id := door_id, activated := now,
              transition_status := transitional_door_status,
              target_status := target_door_status } }

/-! ## Concrete instantiations used by witnesses

The theorems about the cipher and transport are parameterised over the
external primitives.  To evaluate them on concrete inputs, the witnesses
instantiate the parameters with simple functions that satisfy their
documented behaviour: the identity for the block cipher and a hexadecimal
codec for base64. -/

/-- Hex digit character (lowercase). -/
def hexDigitChar (n : Nat) : Nat := if n < 10 then 48 + n else 87 + n

/-- Hexadecimal byte-string encoding: an ASCII text codec usable wherever the
theorems assume base64's properties. -/
def hexEncode (bs : List Nat) : List Nat :=
  (bs.map (fun b => [hexDigitChar (b / 16), hexDigitChar (b % 16)])).flatten

/-- Value of one hex digit character. -/
def hexVal (c : Nat) : Option Nat :=
  if 48 ≤ c ∧ c ≤ 57 then some (c - 48)
  else if 97 ≤ c ∧ c ≤ 102 then some (c - 87)
  else none

/-- Hexadecimal byte-string decoding. -/
def hexDecode : List Nat → Option (List Nat)
  | [] => some []
  | [_] => none
  | a :: b :: rest =>
    match hexVal a, hexVal b, hexDecode rest with
    | some ha, some hb, some r => some ((ha * 16 + hb) :: r)
    | _, _, _ => none

/-- Example primitives for witnesses: identity block cipher, hex text codec. -/
def egPrims : ExtPrimitives :=
  { aesEncCbc := fun _ _ d => d
    aesDecCbc := fun _ _ d => d
    b64encode := hexEncode
    b64decode := hexDecode }

/-- Number of maximal runs of elements satisfying `p` in a list. -/
def countRuns (p : Nat → Bool) : List Nat → Nat
  | [] => 0
  | [a] => if p a then 1 else 0
  | a :: b :: t => (if p a && !(p b) then 1 else 0) + countRuns p (b :: t)

/-- Concrete outputs element whose texts are `yes`/`1`/`on`. -/
def egOutputsElem : XmlElem :=
  .mk (codes "outputs") none
    [.mk (codes "output1") (some (codes "yes")) [],
     .mk (codes "output2") (some (codes "1")) [],
     .mk (codes "output3") (some (codes "on")) []]

/-- Concrete parent element whose `pin` child holds non-numeric text. -/
def egPinElem : XmlElem :=
  .mk (codes "response") none [.mk (codes "pin") (some (codes "abc")) []]

/-- Concrete root element containing an `error` child that has text but no
child elements. -/
def egChildlessErrorRoot : XmlElem :=
  .mk (codes "response") none
    [.mk (codes "error") (some (codes "boom")) [],
     .mk (codes "user") (some (codes "admin")) []]


/-- Concrete configured door used by reconciler witnesses. -/
def egDoorClosed : AbstractDoorData :=
  { door_id := 1, permission := true, name := some (codes "garage"), mode := .garage,
    gate := false, status := .closed, sensor := true, camera := false,
    events := none, sensorid := none, temperature := none }

/-- Second concrete configured door. -/
def egDoorOpened : AbstractDoorData :=
  { door_id := 2, permission := true, name := some (codes "side"), mode := .garage,
    gate := false, status := .opened, sensor := true, camera := false,
    events := none, sensorid := none, temperature := none }

/-- Concrete unconfigured door (`name` is `None`). -/
def egDoorUnconfigured : AbstractDoorData :=
  { door_id := 3, permission := true, name := none, mode := .garage,
    gate := false, status := .undefined, sensor := false, camera := false,
    events := none, sensorid := none, temperature := none }

/-- Concrete info snapshot: doors (closed, opened, unconfigured). -/
def egInfo : GogoGate2InfoResponse :=
  { user := codes "admin", gogogatename := codes "home", model := codes "GG2",
    apiversion := codes "1.5", remoteaccessenabled := false,
    remoteaccess := codes "", firmwareversion := codes "4.2",
    apicode := codes "abc123",
    door1 := egDoorClosed, door2 := egDoorOpened, door3 := egDoorUnconfigured,
    outputs := { output1 := false, output2 := false, output3 := false },
    network := { ip := codes "10.0.0.2" },
    wifi := { SSID := none, linkquality := none, signal := none } }

/-- Concrete gogogate2 door element: permission `yes`, mode `garage`, status
`closed`, sensor `YES`, camera `no`, name `garage`. -/
def egDoorElem : XmlElem :=
  .mk (codes "door1") none
    [.mk (codes "permission") (some (codes "yes")) [],
     .mk (codes "name") (some (codes "garage")) [],
     .mk (codes "mode") (some (codes "garage")) [],
     .mk (codes "status") (some (codes "closed")) [],
     .mk (codes "sensor") (some (codes "YES")) [],
     .mk (codes "camera") (some (codes "no")) []]

/-- Concrete iSmartGate door element. -/
def egISDoorElem : XmlElem :=
  .mk (codes "door1") none
    [.mk (codes "enabled") (some (codes "yes")) [],
     .mk (codes "apicode") (some (codes "Ab12")) [],
     .mk (codes "customimage") (some (codes "no")) [],
     .mk (codes "permission") (some (codes "on")) [],
     .mk (codes "name") (some (codes "gate")) [],
     .mk (codes "gate") (some (codes "yes")) [],
     .mk (codes "mode") (some (codes "pulse")) [],
     .mk (codes "status") (some (codes "opened")) [],
     .mk (codes "sensor") (some (codes "1")) [],
     .mk (codes "camera") (some (codes "no")) []]

/-- Concrete outputs element with texts `on`/`off`/`ON`. -/
def egOutputsOnElem : XmlElem :=
  .mk (codes "outputs") none
    [.mk (codes "output1") (some (codes "on")) [],
     .mk (codes "output2") (some (codes "off")) [],
     .mk (codes "output3") (some (codes "ON")) []]

/-- Concrete full gogogate2 info element. -/
def egInfoElem : XmlElem :=
  .mk (codes "response") none
    [.mk (codes "user") (some (codes "admin")) [],
     .mk (codes "gogogatename") (some (codes "home")) [],
     .mk (codes "model") (some (codes "GG2")) [],
     .mk (codes "apiversion") (some (codes "1.5")) [],
     .mk (codes "remoteaccessenabled") (some (codes "1")) [],
     .mk (codes "remoteaccess") (some (codes "abc.my-gogogate.com")) [],
     .mk (codes "firmwareversion") (some (codes "4.2")) [],
     .mk (codes "apicode") (some (codes "AbC123")) [],
     egDoorElem,
     .mk (codes "door2") none
       [.mk (codes "permission") (some (codes "yes")) [],
        .mk (codes "name") (some (codes "side")) [],
        .mk (codes "mode") (some (codes "garage")) [],
        .mk (codes "status") (some (codes "opened")) [],
        .mk (codes "sensor") (some (codes "no")) [],
        .mk (codes "camera") (some (codes "no")) []],
     .mk (codes "door3") none
       [.mk (codes "permission") (some (codes "no")) [],
        .mk (codes "mode") (some (codes "garage")) [],
        .mk (codes "status") (some (codes "undefined")) [],
        .mk (codes "sensor") (some (codes "no")) [],
        .mk (codes "camera") (some (codes "no")) []],
     egOutputsOnElem,
     .mk (codes "network") none [.mk (codes "ip") (some (codes "10.0.0.2")) []],
     .mk (codes "wifi") none []]

/-- The decoded form of `egDoorElem`. -/
def egDoorDecoded : AbstractDoorData :=
  { door_id := 1, permission := true, name := some (codes "garage"), mode := .garage,
    gate := false, status := .closed, sensor := true, camera := false,
    events := none, sensorid := none, temperature := none }

/-- The error child of `egErrorRoot`. -/
def egErrorChild : XmlElem :=
  .mk (codes "error") none
    [.mk (codes "errorcode") (some (codes "1")) [],
     .mk (codes "errormsg") (some (codes "bad login")) []]

/-- Concrete root element containing a well-formed `error` child. -/
def egErrorRoot : XmlElem :=
  .mk (codes "response") none [egErrorChild]

/-! # Theorems -/

/-! ## UTF-8 lemmas -/

theorem utf8EncodeChar_ascii {c : Nat} (h : c < 0x80) : utf8EncodeChar c = [c] := by
  simp [utf8EncodeChar, h]

theorem utf8Encode_cons (c : Nat) (s : List Nat) :
    utf8Encode (c :: s) = utf8EncodeChar c ++ utf8Encode s := by
  simp [utf8Encode]

theorem utf8Encode_append (s t : List Nat) :
    utf8Encode (s ++ t) = utf8Encode s ++ utf8Encode t := by
  simp [utf8Encode]

theorem utf8Encode_ascii {s : List Nat} (h : ∀ c ∈ s, c < 0x80) : utf8Encode s = s := by
  induction s with
  | nil => rfl
  | cons c t ih =>
    rw [utf8Encode_cons, utf8EncodeChar_ascii (h c (by simp)),
      ih (fun x hx => h x (by simp [hx]))]
    rfl

theorem utf8Encode_replicate {n a : Nat} (h : a < 0x80) :
    utf8Encode (List.replicate n a) = List.replicate n a :=
  utf8Encode_ascii (fun c hc => by rw [List.eq_of_mem_replicate hc]; exact h)

theorem utf8EncodeChar_length_pos (c : Nat) : 1 ≤ (utf8EncodeChar c).length := by
  unfold utf8EncodeChar
  by_cases h1 : c < 0x80
  · simp [h1]
  · by_cases h2 : c < 0x800
    · simp [h1, h2]
    · by_cases h3 : c < 0x10000 <;> simp [h1, h2, h3]

theorem utf8EncodeChar_ne_nil (c : Nat) : utf8EncodeChar c ≠ [] := by
  intro hcontra
  have hpos := utf8EncodeChar_length_pos c
  rw [hcontra] at hpos
  simp at hpos

theorem utf8DecodeOne_ascii {c : Nat} (h : c < 0x80) (bs : List Nat) :
    utf8DecodeOne (c :: bs) = some (c, bs) := by
  simp [utf8DecodeOne, h]

theorem utf8DecodeOne_encodeChar {c : Nat} (h : ValidChar c) (bs : List Nat) :
    utf8DecodeOne (utf8EncodeChar c ++ bs) = some (c, bs) := by
  have hc : c < 0x110000 := by rcases h with h | h <;> omega
  by_cases h1 : c < 0x80
  · rw [utf8EncodeChar_ascii h1]
    exact utf8DecodeOne_ascii h1 bs
  · by_cases h2 : c < 0x800
    · have e : utf8EncodeChar c = [0xC0 + c / 64, 0x80 + c % 64] := by
        simp [utf8EncodeChar, h1, h2]
      have ha : ¬ (0xC0 + c / 64 < 0x80) := by omega
      have hb : 0xC0 + c / 64 < 0xE0 := by omega
      have hcnd : 0xC2 ≤ 0xC0 + c / 64 ∧ 0x80 ≤ 0x80 + c % 64 ∧ 0x80 + c % 64 < 0xC0 := by
        omega
      rw [e]
      simp only [List.cons_append, List.nil_append, utf8DecodeOne]
      rw [if_neg ha, if_pos hb]
      simp only [utf8Cont2]
      rw [if_pos hcnd]
      simp only [Option.some.injEq, Prod.mk.injEq]
      exact ⟨by omega, trivial⟩
    · by_cases h3 : c < 0x10000
      · have e : utf8EncodeChar c
            = [0xE0 + c / 4096, 0x80 + (c / 64) % 64, 0x80 + c % 64] := by
          simp [utf8EncodeChar, h1, h2, h3]
        have ha : ¬ (0xE0 + c / 4096 < 0x80) := by omega
        have hb : ¬ (0xE0 + c / 4096 < 0xE0) := by omega
        have hb2 : 0xE0 + c / 4096 < 0xF0 := by omega
        have hcnd : (0x80 ≤ 0x80 + (c / 64) % 64 ∧ 0x80 + (c / 64) % 64 < 0xC0)
            ∧ (0x80 ≤ 0x80 + c % 64 ∧ 0x80 + c % 64 < 0xC0) := by omega
        rw [e]
        simp only [List.cons_append, List.nil_append, utf8DecodeOne]
        rw [if_neg ha, if_neg hb, if_pos hb2]
        simp only [utf8Cont3]
        rw [if_pos hcnd]
        simp only [Option.some.injEq, Prod.mk.injEq]
        exact ⟨by omega, trivial⟩
      · have e : utf8EncodeChar c
            = [0xF0 + c / 262144, 0x80 + (c / 4096) % 64, 0x80 + (c / 64) % 64,
               0x80 + c % 64] := by
          simp [utf8EncodeChar, h1, h2, h3]
        have ha : ¬ (0xF0 + c / 262144 < 0x80) := by omega
        have hb : ¬ (0xF0 + c / 262144 < 0xE0) := by omega
        have hb2 : ¬ (0xF0 + c / 262144 < 0xF0) := by omega
        have hb3 : 0xF0 + c / 262144 < 0xF5 := by omega
        have hcnd : (0x80 ≤ 0x80 + (c / 4096) % 64 ∧ 0x80 + (c / 4096) % 64 < 0xC0)
            ∧ (0x80 ≤ 0x80 + (c / 64) % 64 ∧ 0x80 + (c / 64) % 64 < 0xC0)
            ∧ (0x80 ≤ 0x80 + c % 64 ∧ 0x80 + c % 64 < 0xC0) := by omega
        rw [e]
        simp only [List.cons_append, List.nil_append, utf8DecodeOne]
        rw [if_neg ha, if_neg hb, if_neg hb2, if_pos hb3]
        simp only [utf8Cont4]
        rw [if_pos hcnd]
        simp only [Option.some.injEq, Prod.mk.injEq]
        exact ⟨by omega, trivial⟩

theorem utf8DecodeLoop_cons {f : Nat} {l : List Nat} {c : Nat} {r : List Nat}
    (hne : l ≠ []) (h1 : utf8DecodeOne l = some (c, r)) :
    utf8DecodeLoop (f + 1) l = (utf8DecodeLoop f r).map (c :: ·) := by
  match l, hne with
  | b0 :: rest, _ => simp [utf8DecodeLoop, h1]

theorem utf8DecodeLoop_ascii {s : List Nat} (h : ∀ c ∈ s, c < 0x80) :
    ∀ fuel, s.length ≤ fuel → utf8DecodeLoop fuel s = some s := by
  induction s with
  | nil => intro fuel _; cases fuel <;> rfl
  | cons c t ih =>
    intro fuel hf
    cases fuel with
    | zero => simp at hf
    | succ f =>
      rw [utf8DecodeLoop_cons (by simp) (utf8DecodeOne_ascii (h c (by simp)) t),
        ih (fun x hx => h x (by simp [hx])) f (by simp at hf; omega)]
      rfl

theorem utf8DecodeLoop_encode {s : List Nat} (h : ∀ c ∈ s, ValidChar c) :
    ∀ fuel, (utf8Encode s).length ≤ fuel → utf8DecodeLoop fuel (utf8Encode s) = some s := by
  induction s with
  | nil => intro fuel _; cases fuel <;> rfl
  | cons c t ih =>
    intro fuel hf
    rw [utf8Encode_cons] at hf ⊢
    have hlen1 : 1 ≤ (utf8EncodeChar c).length := utf8EncodeChar_length_pos c
    have hlen : (utf8EncodeChar c ++ utf8Encode t).length
        = (utf8EncodeChar c).length + (utf8Encode t).length := by simp
    cases fuel with
    | zero => omega
    | succ f =>
      rw [utf8DecodeLoop_cons
          (fun hcontra => utf8EncodeChar_ne_nil c (List.append_eq_nil.mp hcontra).1)
          (utf8DecodeOne_encodeChar (h c (by simp)) (utf8Encode t)),
        ih (fun x hx => h x (by simp [hx])) f (by omega)]
      rfl

theorem utf8Decode_ascii {s : List Nat} (h : ∀ c ∈ s, c < 0x80) :
    utf8Decode s = some s :=
  utf8DecodeLoop_ascii h s.length le_rfl

theorem utf8Decode_utf8Encode {s : List Nat} (h : ∀ c ∈ s, ValidChar c) :
    utf8Decode (utf8Encode s) = some s :=
  utf8DecodeLoop_encode h (utf8Encode s).length le_rfl

theorem utf8EncodeChar_lt256 {c : Nat} (h : ValidChar c) :
    ∀ b ∈ utf8EncodeChar c, b < 256 := by
  have hc : c < 0x110000 := by rcases h with h | h <;> omega
  intro b hb
  unfold utf8EncodeChar at hb
  by_cases h1 : c < 0x80
  · simp [h1] at hb; omega
  · by_cases h2 : c < 0x800
    · simp [h1, h2] at hb; rcases hb with hb | hb <;> omega
    · by_cases h3 : c < 0x10000
      · simp [h1, h2, h3] at hb; rcases hb with hb | hb | hb <;> omega
      · simp [h1, h2, h3] at hb; rcases hb with hb | hb | hb | hb <;> omega

theorem utf8Encode_lt256 {s : List Nat} (h : ∀ c ∈ s, ValidChar c) :
    ∀ b ∈ utf8Encode s, b < 256 := by
  induction s with
  | nil => simp [utf8Encode]
  | cons c t ih =>
    intro b hb
    rw [utf8Encode_cons] at hb
    rcases List.mem_append.mp hb with hb | hb
    · exact utf8EncodeChar_lt256 (h c (by simp)) b hb
    · exact ih (fun x hx => h x (by simp [hx])) b hb

/-! ## Padding lemmas -/

theorem pad_amount_pos (data : List Nat) : 1 ≤ 16 - data.length % 16 := by omega

theorem pad_amount_le (data : List Nat) : 16 - data.length % 16 ≤ 16 := by omega

theorem pad_pkcs5_length (data : List Nat) :
    (pad_pkcs5 data).length = data.length + (16 - data.length % 16) := by
  simp [pad_pkcs5]

theorem pad_pkcs5_length_mod (data : List Nat) : (pad_pkcs5 data).length % 16 = 0 := by
  rw [pad_pkcs5_length]; omega

theorem pad_pkcs5_ascii {data : List Nat} (h : ∀ c ∈ data, c < 0x80) :
    ∀ c ∈ pad_pkcs5 data, c < 0x80 := by
  intro c hc
  rcases List.mem_append.mp hc with hc | hc
  · exact h c hc
  · rw [List.eq_of_mem_replicate hc]; omega

theorem getLast?_append_replicate (xs : List Nat) {n a : Nat} (h : 1 ≤ n) :
    (xs ++ List.replicate n a).getLast? = some a := by
  cases n with
  | zero => omega
  | succ m =>
    rw [List.replicate_succ', ← List.append_assoc, List.getLast?_concat]

theorem unpad_append_replicate (xs : List Nat) {n : Nat} (h1 : 1 ≤ n) :
    unpad_pkcs5 (xs ++ List.replicate n n) = xs := by
  have hlast := getLast?_append_replicate xs (a := n) h1
  have hn : ¬ (n = 0) := by omega
  have hlen : (xs ++ List.replicate n n).length - n = xs.length := by simp
  simp only [unpad_pkcs5, hlast, hn, if_false, hlen]
  exact List.take_left xs (List.replicate n n)

/-! ## Cipher round-trip lemmas -/

theorem pad_pkcs5_valid {data : List Nat} (h : ∀ c ∈ data, ValidChar c) :
    ∀ c ∈ pad_pkcs5 data, ValidChar c := by
  intro c hc
  rcases List.mem_append.mp hc with hc | hc
  · exact h c hc
  · rw [List.eq_of_mem_replicate hc]
    exact Or.inl (by omega)

theorem utf8Encode_pad (content : List Nat) :
    utf8Encode (pad_pkcs5 content)
      = utf8Encode content
        ++ List.replicate (16 - content.length % 16) (16 - content.length % 16) := by
  rw [pad_pkcs5, utf8Encode_append, utf8Encode_replicate (by omega)]

theorem ivBytes_length {ivSource : List Nat} (h : ∀ c ∈ ivSource, c < 0x80) :
    ((utf8Encode (pad_pkcs5 ivSource)).take 16).length = 16 := by
  rw [List.length_take, utf8Encode_ascii (pad_pkcs5_ascii h), pad_pkcs5_length]
  omega

theorem encrypt_eq_some (E : ExtPrimitives)
    (hb64ascii : ∀ bs, (∀ b ∈ bs, b < 256) → ∀ b2 ∈ E.b64encode bs, b2 < 0x80)
    (haesrange : ∀ k iv d, (∀ b ∈ d, b < 256) → ∀ b ∈ E.aesEncCbc k iv d, b < 256)
    (keyBytes content genIv : List Nat) (initVector : Option (List Nat))
    (hvalid : ∀ c ∈ content, ValidChar c)
    (hlen : (utf8Encode content).length % 16 = content.length % 16)
    (hiv : ∀ c ∈ ivSourceOf initVector genIv, c < 0x80) :
    encrypt E keyBytes content initVector genIv
      = some ((utf8Encode (pad_pkcs5 (ivSourceOf initVector genIv))).take 16
          ++ E.b64encode (E.aesEncCbc keyBytes
              ((utf8Encode (pad_pkcs5 (ivSourceOf initVector genIv))).take 16)
              (utf8Encode (pad_pkcs5 content)))) := by
  have hCBlen : (utf8Encode (pad_pkcs5 content)).length % 16 = 0 := by
    rw [utf8Encode_pad]
    simp only [List.length_append, List.length_replicate]
    omega
  have hpadiv_ascii : ∀ c ∈ pad_pkcs5 (ivSourceOf initVector genIv), c < 0x80 :=
    pad_pkcs5_ascii hiv
  have hivB_ascii :
      ∀ c ∈ (utf8Encode (pad_pkcs5 (ivSourceOf initVector genIv))).take 16, c < 0x80 := by
    intro c hc
    refine hpadiv_ascii c ?_
    rw [utf8Encode_ascii hpadiv_ascii] at hc
    exact List.take_subset _ _ hc
  have hcontent256 : ∀ b ∈ utf8Encode (pad_pkcs5 content), b < 256 :=
    utf8Encode_lt256 (pad_pkcs5_valid hvalid)
  unfold encrypt
  rw [if_neg (by omega)]
  apply utf8Decode_ascii
  intro c hc
  rcases List.mem_append.mp hc with hc | hc
  · exact hivB_ascii c hc
  · exact hb64ascii _ (haesrange _ _ _ hcontent256) c hc

/-! ## Hexadecimal codec lemmas (for the witness instantiation) -/

theorem hexDigitChar_lt {n : Nat} (h : n < 16) : hexDigitChar n < 0x80 := by
  unfold hexDigitChar
  split <;> omega

theorem hexVal_hexDigitChar {n : Nat} (h : n < 16) : hexVal (hexDigitChar n) = some n := by
  unfold hexVal hexDigitChar
  by_cases h10 : n < 10
  · rw [if_pos h10, if_pos (show 48 ≤ 48 + n ∧ 48 + n ≤ 57 by omega)]
    congr 1
    omega
  · rw [if_neg h10, if_neg (show ¬ (48 ≤ 87 + n ∧ 87 + n ≤ 57) by omega),
      if_pos (show 97 ≤ 87 + n ∧ 87 + n ≤ 102 by omega)]
    congr 1
    omega

theorem hexEncode_cons (b : Nat) (t : List Nat) :
    hexEncode (b :: t) = hexDigitChar (b / 16) :: hexDigitChar (b % 16) :: hexEncode t := by
  simp [hexEncode]

theorem hexDecode_hexEncode {bs : List Nat} (h : ∀ b ∈ bs, b < 256) :
    hexDecode (hexEncode bs) = some bs := by
  induction bs with
  | nil => rfl
  | cons b t ih =>
    have hb : b < 256 := h b (by simp)
    rw [hexEncode_cons]
    simp [hexDecode, hexVal_hexDigitChar (show b / 16 < 16 by omega),
      hexVal_hexDigitChar (show b % 16 < 16 by omega),
      ih (fun x hx => h x (by simp [hx]))]
    omega

theorem hexEncode_ascii {bs : List Nat} (h : ∀ b ∈ bs, b < 256) :
    ∀ c ∈ hexEncode bs, c < 0x80 := by
  intro c hc
  unfold hexEncode at hc
  rw [List.mem_flatten] at hc
  obtain ⟨l, hl, hcl⟩ := hc
  rw [List.mem_map] at hl
  obtain ⟨b, hb, rfl⟩ := hl
  have hb256 : b < 256 := h b hb
  simp only [List.mem_cons, List.not_mem_nil, or_false] at hcl
  rcases hcl with rfl | rfl
  · exact hexDigitChar_lt (by omega)
  · exact hexDigitChar_lt (by omega)

theorem egPrimsOK : ExtPrimitivesOK egPrims :=
  { aes_dec_enc := fun _ _ _ => rfl
    aes_enc_length := fun _ _ _ => rfl
    aes_enc_range := fun _ _ _ hd b hb => hd b hb
    b64_dec_enc := fun _ h => hexDecode_hexEncode h
    b64_ascii := fun _ h => hexEncode_ascii h }

/-- Claim C1 (amended): the round-trip `decrypt(encrypt(P, iv)) = P` holds
for every plaintext whose UTF-8 byte length agrees with its character length
modulo the 16-byte block (in particular all ASCII plaintexts) and every IV
string made of ASCII characters (including the generated 32-hex-character
default); it does not hold for arbitrary plaintexts. -/
theorem c1_encrypt_decrypt_roundtrip (E : ExtPrimitives) (hE : ExtPrimitivesOK E)
    (keyBytes content genIv : List Nat) (initVector : Option (List Nat))
    (hvalid : ∀ c ∈ content, ValidChar c)
    (hlen : (utf8Encode content).length % 16 = content.length % 16)
    (hiv : ∀ c ∈ ivSourceOf initVector genIv, c < 0x80) :
    ∃ out, encrypt E keyBytes content initVector genIv = some out ∧
      decrypt E keyBytes out = .ok content := by
  have henc := encrypt_eq_some E hE.b64_ascii hE.aes_enc_range keyBytes content genIv
    initVector hvalid hlen hiv
  refine ⟨_, henc, ?_⟩
  set ivB := (utf8Encode (pad_pkcs5 (ivSourceOf initVector genIv))).take 16 with hivBdef
  set CB := utf8Encode (pad_pkcs5 content) with hCBdef
  set enc := E.aesEncCbc keyBytes ivB CB with hencdef
  set benc := E.b64encode enc with hbencdef
  have hpadiv_ascii : ∀ c ∈ pad_pkcs5 (ivSourceOf initVector genIv), c < 0x80 :=
    pad_pkcs5_ascii hiv
  have hivB_ascii : ∀ c ∈ ivB, c < 0x80 := by
    intro c hc
    rw [hivBdef] at hc
    refine hpadiv_ascii c ?_
    rw [utf8Encode_ascii hpadiv_ascii] at hc
    exact List.take_subset _ _ hc
  have hcontent256 : ∀ b ∈ CB, b < 256 := by
    rw [hCBdef]
    exact utf8Encode_lt256 (pad_pkcs5_valid hvalid)
  have henc256 : ∀ b ∈ enc, b < 256 := by
    rw [hencdef]
    exact hE.aes_enc_range _ _ _ hcontent256
  have hbenc_ascii : ∀ c ∈ benc, c < 0x80 := by
    rw [hbencdef]
    exact hE.b64_ascii _ henc256
  have hout_ascii : ∀ c ∈ ivB ++ benc, c < 0x80 := by
    intro c hc
    rcases List.mem_append.mp hc with hc | hc
    · exact hivB_ascii c hc
    · exact hbenc_ascii c hc
  have hutf : utf8Encode (ivB ++ benc) = ivB ++ benc := utf8Encode_ascii hout_ascii
  have hivBlen : ivB.length = 16 := by
    rw [hivBdef]
    exact ivBytes_length hiv
  have htake : (ivB ++ benc).take 16 = ivB := by
    rw [← hivBlen]
    exact List.take_left _ _
  have hdrop : (ivB ++ benc).drop 16 = benc := by
    rw [← hivBlen]
    exact List.drop_left _ _
  have hb64 : E.b64decode benc = some enc := by
    rw [hbencdef]
    exact hE.b64_dec_enc enc henc256
  have hCBlen0 : CB.length % 16 = 0 := by
    rw [hCBdef, utf8Encode_pad]
    simp only [List.length_append, List.length_replicate]
    omega
  have henclen : enc.length % 16 = 0 := by
    rw [hencdef, hE.aes_enc_length]
    exact hCBlen0
  have hdec : E.aesDecCbc keyBytes ivB enc = CB := by
    rw [hencdef]
    exact hE.aes_dec_enc _ _ _
  have hCBne : ¬ (CB = []) := by
    have hpos : 0 < CB.length := by
      rw [hCBdef, utf8Encode_pad]
      simp only [List.length_append, List.length_replicate]
      omega
    exact List.length_pos.mp hpos
  have hunpad : unpad_pkcs5 CB = utf8Encode content := by
    rw [hCBdef, utf8Encode_pad]
    exact unpad_append_replicate _ (by omega)
  have hdecfin : utf8Decode (utf8Encode content) = some content := utf8Decode_utf8Encode hvalid
  simp [decrypt, hutf, htake, hdrop, hb64, henclen, hdec, hCBne, hunpad, hdecfin, hivBlen]

/-- Counterexample for C1 as stated: for the one-character non-ASCII
plaintext `"é"` (code point 233), the pad amount is computed from the
character length (1, so 15 pad characters) but the UTF-8 encoding of the
padded string is 17 bytes, not a multiple of 16, so `encrypt` raises instead
of producing a ciphertext — the round trip fails before `decrypt` is ever
reached. -/
theorem c1_roundtrip_counterexample :
    encrypt egPrims (codes "0123456789abcdef") [233] none
      (codes "00112233445566778899aabbccddeeff") = none := by decide

/-- Witness for C1 at concrete inputs: an ASCII plaintext with the fixed
16-character IV from the repository's tests round-trips. -/
theorem c1_encrypt_decrypt_roundtrip_witness :
    ∃ out, encrypt egPrims (codes "0123456789abcdef") (codes "hello")
        (some (codes "497c04879e0d26af")) (codes "00112233445566778899aabbccddeeff")
        = some out ∧
      decrypt egPrims (codes "0123456789abcdef") out = .ok (codes "hello") :=
  c1_encrypt_decrypt_roundtrip egPrims egPrimsOK (codes "0123456789abcdef")
    (codes "hello") (codes "00112233445566778899aabbccddeeff")
    (some (codes "497c04879e0d26af")) (by decide) (by decide) (by decide)

/-- Claim C9: with the default generated IV, `encrypt` fails (the padded byte
string is not a multiple of the 16-byte block, so the block cipher raises)
exactly when the plaintext's UTF-8 byte length differs from its character
length modulo 16; it succeeds on all other plaintexts, in particular on all
ASCII ones. -/
theorem c9_encrypt_total_iff_lengths_agree (E : ExtPrimitives) (hE : ExtPrimitivesOK E)
    (keyBytes content genIv : List Nat)
    (hvalid : ∀ c ∈ content, ValidChar c)
    (hgen : ∀ c ∈ genIv, c < 0x80) :
    encrypt E keyBytes content none genIv = none ↔
      (utf8Encode content).length % 16 ≠ content.length % 16 := by
  constructor
  · intro hnone
    by_contra hag
    have heq : (utf8Encode content).length % 16 = content.length % 16 := by omega
    rw [encrypt_eq_some E hE.b64_ascii hE.aes_enc_range keyBytes content genIv none
      hvalid heq hgen] at hnone
    simp at hnone
  · intro hdiff
    unfold encrypt
    rw [if_pos (by
      rw [utf8Encode_pad]
      simp only [List.length_append, List.length_replicate]
      omega)]

/-- Witness for C9 at a concrete input: the non-ASCII one-character plaintext
`"é"` makes `encrypt` fail with the default generated IV. -/
theorem c9_encrypt_total_iff_lengths_agree_witness :
    encrypt egPrims (codes "k") [233] none
      (codes "00112233445566778899aabbccddeeff") = none :=
  (c9_encrypt_total_iff_lengths_agree egPrims egPrimsOK (codes "k") [233]
    (codes "00112233445566778899aabbccddeeff") (by decide) (by decide)).mpr (by decide)

/-- Claim C8: `pad_pkcs5` appends `N` copies of the value `N` where
`N = 16 - length % 16`, so `N` is always in `1..16` (a full pad block is
added on exact multiples), the padded length is a multiple of 16, and
`unpad_pkcs5` removes exactly those `N` trailing items — both on the raw
sequence and after UTF-8 encoding of the padded string (each pad character
`chr(N)` with `N ≤ 16` is a single byte of value `N`). -/
theorem c8_pad_unpad_roundtrip (data : List Nat) :
    1 ≤ 16 - data.length % 16 ∧ 16 - data.length % 16 ≤ 16 ∧
    pad_pkcs5 data
      = data ++ List.replicate (16 - data.length % 16) (16 - data.length % 16) ∧
    (pad_pkcs5 data).length % 16 = 0 ∧
    unpad_pkcs5 (pad_pkcs5 data) = data ∧
    unpad_pkcs5 (utf8Encode (pad_pkcs5 data)) = utf8Encode data := by
  refine ⟨pad_amount_pos data, pad_amount_le data, rfl, pad_pkcs5_length_mod data, ?_, ?_⟩
  · exact unpad_append_replicate data (pad_amount_pos data)
  · rw [pad_pkcs5, utf8Encode_append, utf8Encode_replicate (by omega)]
    exact unpad_append_replicate _ (pad_amount_pos data)

/-- Claim C10: a nonempty byte string whose final byte is `0` unpads to the
empty byte string (Python's `data[0:-0]` is `data[0:0]`), and consequently
`decrypt` returns the empty string whenever the block-cipher output for the
base64 payload ends in a zero byte. -/
theorem c10_unpad_zero_empty :
    (∀ data : List Nat, data.getLast? = some 0 → unpad_pkcs5 data = []) ∧
    (∀ (E : ExtPrimitives) (keyBytes content encBytes : List Nat),
      16 ≤ (utf8Encode content).length →
      E.b64decode (content.drop 16) = some encBytes →
      encBytes.length % 16 = 0 →
      (E.aesDecCbc keyBytes ((utf8Encode content).take 16) encBytes).getLast? = some 0 →
      decrypt E keyBytes content = .ok []) := by
  constructor
  · intro data hlast
    simp [unpad_pkcs5, hlast]
  · intro E keyBytes content encBytes hlen hb64 hblk hlast
    have hiv : ((utf8Encode content).take 16).length = 16 := by
      rw [List.length_take]; omega
    have hne : E.aesDecCbc keyBytes ((utf8Encode content).take 16) encBytes ≠ [] := by
      intro hcontra
      rw [hcontra] at hlast
      simp at hlast
    have hunpad :
        unpad_pkcs5 (E.aesDecCbc keyBytes ((utf8Encode content).take 16) encBytes) = [] := by
      simp [unpad_pkcs5, hlast]
    simp [decrypt, hiv, hb64, hblk, hne, hunpad, utf8Decode, utf8DecodeLoop]

/-- Witness for C10 at concrete inputs: the list `[7, 0]` unpads to `[]`,
and a concrete 16-character IV prefix followed by the hex text of sixteen
bytes ending in `0` decrypts (with the example primitives) to the empty
string. -/
theorem c10_unpad_zero_empty_witness :
    unpad_pkcs5 [7, 0] = [] ∧
    decrypt egPrims (codes "key")
      (codes "0123456789abcdef" ++ hexEncode (List.replicate 15 49 ++ [0])) = .ok [] := by
  constructor
  · exact c10_unpad_zero_empty.1 [7, 0] (by decide)
  · exact c10_unpad_zero_empty.2 egPrims (codes "key")
      (codes "0123456789abcdef" ++ hexEncode (List.replicate 15 49 ++ [0]))
      (List.replicate 15 49 ++ [0]) (by decide) (by decide) (by decide) (by decide)

/-- Claim C5 (amended): the Family B key is the 16-character splice of
*four* fixed-offset substrings of the 40-character SHA-1 hex digest of
`lowercase(username) + password` — `d[32:36]`, `d[7:10]`, `d[18:21]`,
`d[24:26]` — joined by the fixed separators `"a"`, `"!"`, `"*#"`; the token is
the SHA-1 hex digest of `lowercase(username) + "@ismartgate"`. -/
theorem c5_ismartgate_key_token (sha1hex : List Nat → List Nat)
    (hlen : ∀ bs, (sha1hex bs).length = 40) (username password : List Nat) :
    (ismartgateKey sha1hex username password).length = 16 ∧
    ismartgateKey sha1hex username password
      = ((sha1hex (utf8Encode (pyLower username ++ password))).drop 32).take 4
        ++ [97]
        ++ ((sha1hex (utf8Encode (pyLower username ++ password))).drop 7).take 3
        ++ [33]
        ++ ((sha1hex (utf8Encode (pyLower username ++ password))).drop 18).take 3
        ++ [42, 35]
        ++ ((sha1hex (utf8Encode (pyLower username ++ password))).drop 24).take 2 ∧
    ismartgateToken sha1hex username
      = sha1hex (utf8Encode (pyLower username ++ codes "@ismartgate")) := by
  refine ⟨?_, rfl, rfl⟩
  unfold ismartgateKey
  simp only [List.length_append, List.length_take, List.length_drop,
    List.length_cons, List.length_nil, hlen]
  omega

/-- Counterexample for C5 as stated ("five fixed-offset substrings"): with an
injective digest whose characters (100..139) are disjoint from the separator
characters (97, 33, 42, 35), the derived key is an explicit 16-character
string containing exactly four maximal runs of digest characters — the
construction splices four substrings of the digest, not five. -/
theorem c5_key_counterexample :
    ismartgateKey (fun _ => (List.range 40).map (· + 100)) (codes "admin") (codes "pw")
      = [132, 133, 134, 135, 97, 107, 108, 109, 33, 118, 119, 120, 42, 35, 124, 125] ∧
    countRuns (fun c => decide (100 ≤ c))
      (ismartgateKey (fun _ => (List.range 40).map (· + 100)) (codes "admin")
        (codes "pw")) = 4 := by decide

/-- Witness for C5 at a concrete input: with a constant 40-character digest
function, the derived key has length 16. -/
theorem c5_ismartgate_key_token_witness :
    (ismartgateKey (fun _ => List.replicate 40 48) (codes "Admin") (codes "pw")).length
      = 16 :=
  (c5_ismartgate_key_token (fun _ => List.replicate 40 48) (fun _ => by simp)
    (codes "Admin") (codes "pw")).1

/-! ## Decode-error lemmas -/

theorem except_bind_ok {α β ε : Type} {x : Except ε α} {f : α → Except ε β} {b : β}
    (h : (x >>= f) = .ok b) : ∃ a, x = .ok a ∧ f a = .ok b := by
  cases x with
  | error e => exact absurd h (by simp [Bind.bind, Except.bind])
  | ok a => exact ⟨a, rfl, h⟩

/-- Claim C7 (amended): a missing tag raises `TagNotFoundException` naming
the tag; a present tag with absent text raises `TextEmptyException` naming
the tag; an unconvertible int leaf raises `UnexpectedTypeException` carrying
Python `None` (the failed conversion is collapsed to `None` before
`enforce_type` sees it) together with the expected type; and an invalid enum
text raises the enum's plain `ValueError` naming the value, not an
UnexpectedType error. -/
theorem c7_decode_errors :
    (∀ (element : Option XmlElem) (tag : List Nat),
      element_or_none element tag = none →
        element_text_or_raise element tag = .error (.tagNotFound tag) ∧
        element_int_or_raise element tag = .error (.tagNotFound tag)) ∧
    (∀ (element : Option XmlElem) (tag : List Nat) (el : XmlElem),
      element_or_none element tag = some el → el.textOf = none →
        element_text_or_raise element tag = .error (.textEmpty tag) ∧
        element_int_or_raise element tag = .error (.textEmpty tag)) ∧
    (∀ (element : Option XmlElem) (tag : List Nat) (el : XmlElem) (t : List Nat),
      element_or_none element tag = some el → el.textOf = some t →
      pyInt (pyStrip t) = none →
        element_int_or_raise element tag
          = .error (.unexpectedType none (codes "int"))) ∧
    (∀ s : List Nat, s ≠ codes "closed" → s ≠ codes "opened" → s ≠ codes "undefined" →
        enum_or_raise_door_status (some s)
          = .error (.valueError s (codes "DoorStatus"))) := by
  refine ⟨?_, ?_, ?_, ?_⟩
  · intro element tag h
    constructor
    · simp [element_text_or_raise, element_or_raise, h]
    · simp [element_int_or_raise, element_or_raise, h]
  · intro element tag el h1 h2
    constructor
    · simp [element_text_or_raise, element_or_raise, h1, h2]
    · simp [element_int_or_raise, element_or_raise, h1, h2]
  · intro element tag el t h1 h2 h3
    simp [element_int_or_raise, element_or_raise, h1, h2, int_or_raise, int_or_none, h3]
  · intro s h1 h2 h3
    simp [enum_or_raise_door_status, h1, h2, h3]

/-- Counterexample for C7 as stated: decoding the non-numeric `pin` text
`"abc"` raises an UnexpectedType error carrying Python `None` — not the raw
value `"abc"` as the claim says — and an invalid `DoorStatus` text raises a
plain `ValueError`, not an UnexpectedType error. -/
theorem c7_counterexample :
    element_int_or_raise (some egPinElem) (codes "pin")
      = .error (.unexpectedType none (codes "int")) ∧
    element_int_or_raise (some egPinElem) (codes "pin")
      ≠ .error (.unexpectedType (some (codes "abc")) (codes "int")) ∧
    enum_or_raise_door_status (some (codes "nonsense"))
      = .error (.valueError (codes "nonsense") (codes "DoorStatus")) := by decide

/-- Witness for C7 at concrete inputs: a missing tag, an unconvertible int
leaf, and an invalid enum text. -/
theorem c7_decode_errors_witness :
    element_text_or_raise (some egPinElem) (codes "nope")
      = .error (.tagNotFound (codes "nope")) ∧
    element_int_or_raise (some egPinElem) (codes "pin")
      = .error (.unexpectedType none (codes "int")) ∧
    enum_or_raise_door_status (some (codes "broken"))
      = .error (.valueError (codes "broken") (codes "DoorStatus")) :=
  ⟨(c7_decode_errors.1 (some egPinElem) (codes "nope") (by rfl)).1,
   c7_decode_errors.2.2.1 (some egPinElem) (codes "pin")
     (.mk (codes "pin") (some (codes "abc")) []) (codes "abc") rfl rfl (by decide),
   c7_decode_errors.2.2.2 (codes "broken") (by decide) (by decide) (by decide)⟩

theorem except_pure_ok {ε α : Type} {a b : α} (h : (pure a : Except ε α) = .ok b) :
    a = b :=
  Except.ok.inj h

/-- Claim C6 (amended): each boolean leaf compares its trimmed text against a
field-specific token rather than the shared yes/on/1 union the claim states:
the gogogate2 door flags permission/sensor/camera (and the iSmartGate door
flags enabled/gate/customimage/permission/sensor/camera) decode true exactly
when the lowercased text equals `"yes"`; the outputs decode true exactly when
the lowercased text equals `"on"`; gogogate2's `remoteaccessenabled` decodes
true exactly when the text equals `"1"` with no case folding; every other
value decodes to false. -/
theorem c6_boolean_fields :
    (∀ (e : XmlElem) (o : Outputs), outputs_or_raise e = .ok o →
      ∃ t1 t2 t3,
        element_text_or_raise (some e) (codes "output1") = .ok t1 ∧
        element_text_or_raise (some e) (codes "output2") = .ok t2 ∧
        element_text_or_raise (some e) (codes "output3") = .ok t3 ∧
        o.output1 = decide (pyLower t1 = codes "on") ∧
        o.output2 = decide (pyLower t2 = codes "on") ∧
        o.output3 = decide (pyLower t3 = codes "on")) ∧
    (∀ (pf : List Nat → Option ℚ) (id : Int) (e : XmlElem) (d : AbstractDoorData),
      gogogate2_door_or_raise pf id e = .ok d →
      ∃ tp tn tc,
        element_text_or_raise (some e) (codes "permission") = .ok tp ∧
        element_text_or_raise (some e) (codes "sensor") = .ok tn ∧
        element_text_or_raise (some e) (codes "camera") = .ok tc ∧
        d.permission = decide (pyLower tp = codes "yes") ∧
        d.sensor = decide (pyLower tn = codes "yes") ∧
        d.camera = decide (pyLower tc = codes "yes") ∧
        d.gate = false) ∧
    (∀ (pf : List Nat → Option ℚ) (id : Int) (e : XmlElem) (d : ISmartGateDoorData),
      ismartgate_door_or_raise pf id e = .ok d →
      ∃ te tci tp tg tn tc,
        element_text_or_raise (some e) (codes "enabled") = .ok te ∧
        element_text_or_raise (some e) (codes "customimage") = .ok tci ∧
        element_text_or_raise (some e) (codes "permission") = .ok tp ∧
        element_text_or_raise (some e) (codes "gate") = .ok tg ∧
        element_text_or_raise (some e) (codes "sensor") = .ok tn ∧
        element_text_or_raise (some e) (codes "camera") = .ok tc ∧
        d.enabled = decide (pyLower te = codes "yes") ∧
        d.customimage = decide (pyLower tci = codes "yes") ∧
        d.permission = decide (pyLower tp = codes "yes") ∧
        d.gate = decide (pyLower tg = codes "yes") ∧
        d.sensor = decide (pyLower tn = codes "yes") ∧
        d.camera = decide (pyLower tc = codes "yes")) ∧
    (∀ (pf : List Nat → Option ℚ) (e : XmlElem) (r : GogoGate2InfoResponse),
      element_to_gogogate2_info_response pf e = .ok r →
      ∃ tra,
        element_text_or_raise (some e) (codes "remoteaccessenabled") = .ok tra ∧
        r.remoteaccessenabled = decide (tra = codes "1")) := by
  refine ⟨?_, ?_, ?_, ?_⟩
  · intro e o hok
    unfold outputs_or_raise at hok
    obtain ⟨t1, h1, hok⟩ := except_bind_ok hok
    obtain ⟨t2, h2, hok⟩ := except_bind_ok hok
    obtain ⟨t3, h3, hok⟩ := except_bind_ok hok
    have heq := except_pure_ok hok
    subst heq
    exact ⟨t1, t2, t3, h1, h2, h3, rfl, rfl, rfl⟩
  · intro pf id e d hok
    unfold gogogate2_door_or_raise at hok
    obtain ⟨tp, hp, hok⟩ := except_bind_ok hok
    obtain ⟨tm, hm, hok⟩ := except_bind_ok hok
    obtain ⟨m, hmm, hok⟩ := except_bind_ok hok
    obtain ⟨ts, hs, hok⟩ := except_bind_ok hok
    obtain ⟨st, hst, hok⟩ := except_bind_ok hok
    obtain ⟨tn, hn, hok⟩ := except_bind_ok hok
    obtain ⟨tc, hc2, hok⟩ := except_bind_ok hok
    have heq := except_pure_ok hok
    subst heq
    exact ⟨tp, tn, tc, hp, hn, hc2, rfl, rfl, rfl, rfl⟩
  · intro pf id e d hok
    unfold ismartgate_door_or_raise at hok
    obtain ⟨te, he, hok⟩ := except_bind_ok hok
    obtain ⟨tapi, hapi, hok⟩ := except_bind_ok hok
    obtain ⟨tci, hci, hok⟩ := except_bind_ok hok
    obtain ⟨tp, hp, hok⟩ := except_bind_ok hok
    obtain ⟨tg, hg, hok⟩ := except_bind_ok hok
    obtain ⟨tm, hm, hok⟩ := except_bind_ok hok
    obtain ⟨m, hmm, hok⟩ := except_bind_ok hok
    obtain ⟨ts, hs, hok⟩ := except_bind_ok hok
    obtain ⟨st, hst, hok⟩ := except_bind_ok hok
    obtain ⟨tn, hn, hok⟩ := except_bind_ok hok
    obtain ⟨tc, hc2, hok⟩ := except_bind_ok hok
    have heq := except_pure_ok hok
    subst heq
    exact ⟨te, tci, tp, tg, tn, tc, he, hci, hp, hg, hn, hc2,
      rfl, rfl, rfl, rfl, rfl, rfl⟩
  · intro pf e r hok
    unfold element_to_gogogate2_info_response at hok
    obtain ⟨tuser, hu, hok⟩ := except_bind_ok hok
    obtain ⟨tname, hgn, hok⟩ := except_bind_ok hok
    obtain ⟨tmodel, hmo, hok⟩ := except_bind_ok hok
    obtain ⟨tapiv, hav, hok⟩ := except_bind_ok hok
    obtain ⟨tra, hra, hok⟩ := except_bind_ok hok
    obtain ⟨tracc, hracc, hok⟩ := except_bind_ok hok
    obtain ⟨tfw, hfw, hok⟩ := except_bind_ok hok
    obtain ⟨tapic, hapic, hok⟩ := except_bind_ok hok
    obtain ⟨d1e, hd1e, hok⟩ := except_bind_ok hok
    obtain ⟨d1, hd1, hok⟩ := except_bind_ok hok
    obtain ⟨d2e, hd2e, hok⟩ := except_bind_ok hok
    obtain ⟨d2, hd2, hok⟩ := except_bind_ok hok
    obtain ⟨d3e, hd3e, hok⟩ := except_bind_ok hok
    obtain ⟨d3, hd3, hok⟩ := except_bind_ok hok
    obtain ⟨oe, hoe, hok⟩ := except_bind_ok hok
    obtain ⟨o, ho, hok⟩ := except_bind_ok hok
    obtain ⟨ne2, hne2, hok⟩ := except_bind_ok hok
    obtain ⟨nw, hnw, hok⟩ := except_bind_ok hok
    obtain ⟨we, hwe, hok⟩ := except_bind_ok hok
    have heq := except_pure_ok hok
    subst heq
    exact ⟨tra, hra, rfl⟩

/-- Counterexample for C6 as stated: an outputs element whose three texts are
`"yes"`, `"1"` and `"on"` decodes to `(false, false, true)` — the values
`"yes"` and `"1"`, which the claim says decode true for every boolean field,
decode false for outputs, whose token is `"on"`. -/
theorem c6_counterexample :
    outputs_or_raise egOutputsElem
      = .ok { output1 := false, output2 := false, output3 := true } := by decide

/-- Witness for C6 at concrete inputs: a decoded outputs element and a
decoded gogogate2 door element. -/
theorem c6_boolean_fields_witness :
    (∃ t1 t2 t3,
      element_text_or_raise (some egOutputsOnElem) (codes "output1") = .ok t1 ∧
      element_text_or_raise (some egOutputsOnElem) (codes "output2") = .ok t2 ∧
      element_text_or_raise (some egOutputsOnElem) (codes "output3") = .ok t3 ∧
      (Outputs.mk true false true).output1 = decide (pyLower t1 = codes "on") ∧
      (Outputs.mk true false true).output2 = decide (pyLower t2 = codes "on") ∧
      (Outputs.mk true false true).output3 = decide (pyLower t3 = codes "on")) ∧
    (∃ tp tn tc,
      element_text_or_raise (some egDoorElem) (codes "permission") = .ok tp ∧
      element_text_or_raise (some egDoorElem) (codes "sensor") = .ok tn ∧
      element_text_or_raise (some egDoorElem) (codes "camera") = .ok tc ∧
      egDoorDecoded.permission = decide (pyLower tp = codes "yes") ∧
      egDoorDecoded.sensor = decide (pyLower tn = codes "yes") ∧
      egDoorDecoded.camera = decide (pyLower tc = codes "yes") ∧
      egDoorDecoded.gate = false) :=
  ⟨c6_boolean_fields.1 egOutputsOnElem (Outputs.mk true false true) (by decide),
   c6_boolean_fields.2.1 (fun _ => none) 1 egDoorElem egDoorDecoded (by decide)⟩

/-- Claim C4 (amended): the transport attempts to decrypt the body, catching
only `ValueError` (base64, UTF-8, key/IV/block-length failures) and then using
the raw body as the plaintext; an `IndexError` (unpadding an empty decrypted
payload) propagates instead.  After parsing, it raises the family-specific
typed exception looked up by the decoded numeric error code — falling back to
the generic `ApiError` when the code is absent from the family table — if and
only if the tree has an `error` child with at least one child element
(Python `Element` truthiness); a childless `error` child is ignored and the
root is returned. -/
theorem c4_transport_error_handling (E : ExtPrimitives) (keyBytes : List Nat)
    (excMap : List (Int × ExcKind)) (parse : List Nat → Option XmlElem)
    (raw txt : List Nat) :
    (decrypt E keyBytes raw = .error .indexError →
      handleResponse E keyBytes excMap parse raw = .pythonError .indexError) ∧
    ((decrypt E keyBytes raw = .ok txt ∨
        (decrypt E keyBytes raw = .error .valueError ∧ txt = raw)) →
      (parse txt = none →
        handleResponse E keyBytes excMap parse raw = .pythonError .parseError) ∧
      (∀ root : XmlElem, parse txt = some root →
        (root.find (codes "error") = none →
          handleResponse E keyBytes excMap parse raw = .ok root) ∧
        (∀ errEl : XmlElem, root.find (codes "error") = some errEl →
          (errEl.childrenOf.length = 0 →
            handleResponse E keyBytes excMap parse raw = .ok root) ∧
          (errEl.childrenOf.length ≠ 0 →
            (∀ (code : Int) (msg : List Nat),
              element_to_api_error errEl = .ok (code, msg) →
              handleResponse E keyBytes excMap parse raw
                = .apiError ((excMapLookup excMap code).getD .genericApiError)
                    code msg) ∧
            (∀ err : DecodeErr, element_to_api_error errEl = .error err →
              handleResponse E keyBytes excMap parse raw = .decodeError err))))) := by
  constructor
  · intro hidx
    simp [handleResponse, hidx]
  · intro hdec
    refine ⟨?_, ?_⟩
    · intro hparse
      rcases hdec with h | ⟨h, rfl⟩ <;> simp [handleResponse, h, hparse]
    · intro root hroot
      refine ⟨?_, ?_⟩
      · intro hfind
        rcases hdec with h | ⟨h, rfl⟩ <;> simp [handleResponse, h, hroot, hfind]
      · intro errEl herr
        refine ⟨?_, ?_⟩
        · intro hlen0
          rcases hdec with h | ⟨h, rfl⟩ <;> simp [handleResponse, h, hroot, herr, hlen0]
        · intro hlenne
          refine ⟨?_, ?_⟩
          · intro code msg hcode
            rcases hdec with h | ⟨h, rfl⟩ <;>
              simp [handleResponse, h, hroot, herr, hlenne, hcode]
          · intro err herr2
            rcases hdec with h | ⟨h, rfl⟩ <;>
              simp [handleResponse, h, hroot, herr, hlenne, herr2]

/-- Counterexample for C4 as stated: the body `"x"` fails to decrypt (so the
raw text is parsed) and the parsed root contains an `error` child — but that
child has text and no child elements, so `if error_element:` (Python Element
truthiness) is false and the transport returns the root as a success instead
of raising. -/
theorem c4_counterexample :
    handleResponse egPrims (codes "k") gogogate2ExceptionMap
      (fun _ => some egChildlessErrorRoot) (codes "x")
      = .ok egChildlessErrorRoot := by rfl

/-- Witness for C4 at concrete inputs: an unencrypted error body with code 1
raises the gogogate2 credentials-incorrect exception. -/
theorem c4_transport_error_handling_witness :
    handleResponse egPrims (codes "k") gogogate2ExceptionMap
      (fun _ => some egErrorRoot) (codes "x")
      = .apiError ((excMapLookup gogogate2ExceptionMap 1).getD .genericApiError) 1
          (codes "bad login") := by
  have h := (c4_transport_error_handling egPrims (codes "k") gogogate2ExceptionMap
    (fun _ => some egErrorRoot) (codes "x") (codes "x")).2 (Or.inr ⟨by rfl, rfl⟩)
  have h2 := (h.2 egErrorRoot rfl).2 egErrorChild rfl
  exact (h2.2 (by decide)).1 1 (codes "bad login") (by decide)

/-! ## Reconciler lemmas -/

theorem find?_map_doors {doors : List AbstractDoorData} (f : AbstractDoorData → AllDoorStatus)
    {door : AbstractDoorData} (hmem : door ∈ doors)
    (hnodup : (doors.map (·.door_id)).Nodup) :
    (doors.map (fun d => (d.door_id, f d))).find?
      (fun e => decide (e.1 = door.door_id)) = some (door.door_id, f door) := by
  induction doors with
  | nil => cases hmem
  | cons d t ih =>
    rw [List.map_cons, List.nodup_cons] at hnodup
    rcases List.mem_cons.mp hmem with rfl | hmem2
    · rw [List.map_cons, List.find?_cons_of_pos _ (by simp)]
    · have hne : ¬ (d.door_id = door.door_id) := by
        intro heq
        refine hnodup.1 ?_
        rw [heq]
        exact List.mem_map.mpr ⟨door, hmem2, rfl⟩
      rw [List.map_cons, List.find?_cons_of_neg _ (by simp [hne]), ih hmem2 hnodup.2]

theorem statusGet_map_doors {doors : List AbstractDoorData} (f : AbstractDoorData → AllDoorStatus)
    {door : AbstractDoorData} (hmem : door ∈ doors)
    (hnodup : (doors.map (·.door_id)).Nodup) :
    statusGet (doors.map (fun d => (d.door_id, f d))) door.door_id = some (f door) := by
  unfold statusGet
  rw [find?_map_doors f hmem hnodup]
  rfl

theorem statusGet_map_doors_none {doors : List AbstractDoorData}
    (f : AbstractDoorData → AllDoorStatus) (k : Int) :
    statusGet (doors.map (fun d => (d.door_id, f d))) k = none ↔
      k ∉ doors.map (·.door_id) := by
  unfold statusGet
  rw [Option.map_eq_none', List.find?_eq_none]
  constructor
  · intro h hk
    obtain ⟨d, hd, hdk⟩ := List.mem_map.mp hk
    exact h (d.door_id, f d) (List.mem_map.mpr ⟨d, hd, rfl⟩) (by simp [hdk])
  · intro h e he
    obtain ⟨d, hd, rfl⟩ := List.mem_map.mp he
    simp only [decide_eq_true_eq]
    intro heq
    refine h ?_
    rw [← heq]
    exact List.mem_map.mpr ⟨d, hd, rfl⟩

theorem get_door_statuses_fst (cache : TransitionCache) (now timeout : Int)
    (info : GogoGate2InfoResponse) (use : Bool) :
    (_get_door_statuses cache now timeout info use).1 = purgeExpired cache now timeout :=
  rfl

theorem get_door_statuses_lookup (cache : TransitionCache) (now timeout : Int)
    (info : GogoGate2InfoResponse) (use : Bool) (door : AbstractDoorData)
    (hmem : door ∈ get_configured_doors info)
    (hnodup : ((get_configured_doors info).map (·.door_id)).Nodup) :
    statusGet (_get_door_statuses cache now timeout info use).2 door.door_id
      = some (match cacheGet (purgeExpired cache now timeout) door.door_id with
          | some ts =>
            if use ∧ ts.target_status ≠ door.status then
              .transitional ts.transition_status
            else .raw door.status
          | none => .raw door.status) :=
  statusGet_map_doors
    (fun d =>
      match cacheGet (purgeExpired cache now timeout) d.door_id with
      | some ts =>
        if use ∧ ts.target_status ≠ d.status then
          .transitional ts.transition_status
        else .raw d.status
      | none => .raw d.status)
    hmem hnodup

theorem cacheGet_purge_set (c : TransitionCache) (k : Int) (v : CachedTransitionDoorStatus)
    (now2 timeout : Int) :
    cacheGet (purgeExpired (cacheSet c k v) now2 timeout) k
      = if now2 - v.activated < timeout then some v else none := by
  unfold cacheGet purgeExpired cacheSet
  rw [List.filter_append, List.find?_append]
  have h1 : ((c.filter (fun e => decide (e.1 ≠ k))).filter
      (fun e => decide (now2 - e.2.activated < timeout))).find?
      (fun e => decide (e.1 = k)) = none := by
    rw [List.find?_eq_none]
    intro e he
    have he2 := (List.mem_filter.mp (List.mem_filter.mp he).1).2
    simp at he2 ⊢
    exact he2
  rw [h1]
  by_cases hp : now2 - v.activated < timeout
  · simp [hp]
  · simp [hp]

/-- Claim C2: `_get_door_statuses` first purges every cached transition entry
whose age has reached the transition timeout (an entry survives exactly when
`now - activated < timeout`), then reports, for each configured door, the
cached synthetic transitional status exactly when a surviving entry exists
for the door and its `target_status` differs from the door's raw status, and
the raw device status in every other case (including when transitional
statuses are disabled).  In particular, after `open` on a closed configured
door the command is sent, a read before the timeout reports `opening` while
the device still reports `closed`, and a read at or after the timeout
reports the raw `closed` again. -/
theorem c2_transitional_status_read (cache : TransitionCache) (now timeout : Int)
    (info : GogoGate2InfoResponse) (door : AbstractDoorData)
    (hmem : door ∈ get_configured_doors info)
    (hnodup : ((get_configured_doors info).map (·.door_id)).Nodup) :
    (∀ (k : Int) (e : CachedTransitionDoorStatus),
      (k, e) ∈ (_get_door_statuses cache now timeout info true).1 ↔
        ((k, e) ∈ cache ∧ now - e.activated < timeout)) ∧
    (∀ ts, cacheGet (purgeExpired cache now timeout) door.door_id = some ts →
      ts.target_status ≠ door.status →
      statusGet (_get_door_statuses cache now timeout info true).2 door.door_id
        = some (.transitional ts.transition_status)) ∧
    (∀ ts, cacheGet (purgeExpired cache now timeout) door.door_id = some ts →
      ts.target_status = door.status →
      statusGet (_get_door_statuses cache now timeout info true).2 door.door_id
        = some (.raw door.status)) ∧
    (cacheGet (purgeExpired cache now timeout) door.door_id = none →
      statusGet (_get_door_statuses cache now timeout info true).2 door.door_id
        = some (.raw door.status)) ∧
    (statusGet (_get_door_statuses cache now timeout info false).2 door.door_id
      = some (.raw door.status)) ∧
    (door.status = .closed →
      cacheGet (purgeExpired cache now timeout) door.door_id = none →
      (_async_set_door_status cache now timeout info door.door_id .opened true).sent
        = true ∧
      ∀ now2 : Int,
        (now2 - now < timeout →
          statusGet (_get_door_statuses
              (_async_set_door_status cache now timeout info door.door_id .opened
                true).cache
              now2 timeout info true).2 door.door_id
            = some (.transitional .opening)) ∧
        (timeout ≤ now2 - now →
          statusGet (_get_door_statuses
              (_async_set_door_status cache now timeout info door.door_id .opened
                true).cache
              now2 timeout info true).2 door.door_id
            = some (.raw .closed))) := by
  refine ⟨?_, ?_, ?_, ?_, ?_, ?_⟩
  · intro k e
    simp [get_door_statuses_fst, purgeExpired, List.mem_filter]
  · intro ts hts hneq
    rw [get_door_statuses_lookup cache now timeout info true door hmem hnodup, hts]
    simp [hneq]
  · intro ts hts heq
    rw [get_door_statuses_lookup cache now timeout info true door hmem hnodup, hts]
    simp [heq]
  · intro hnone
    rw [get_door_statuses_lookup cache now timeout info true door hmem hnodup, hnone]
  · rw [get_door_statuses_lookup cache now timeout info false door hmem hnodup]
    cases hcg : cacheGet (purgeExpired cache now timeout) door.door_id <;> simp
  · intro hclosed hnone
    have hcur : statusGet (_get_door_statuses cache now timeout info true).2 door.door_id
        = some (.raw DoorStatus.closed) := by
      rw [get_door_statuses_lookup cache now timeout info true door hmem hnodup, hnone,
        hclosed]
    have hres : _async_set_door_status cache now timeout info door.door_id .opened true
        = { sent := true, info_fetched := true, activate_called := true,
            cache := cacheSet (purgeExpired cache now timeout) door.door_id
              { door_id := door.door_id, activated := now,
                transition_status := .opening, target_status := .opened } } := by
      simp [_async_set_door_status, hcur, get_door_statuses_fst, OPEN_DOOR_STATUSES]
    have hcache : (_async_set_door_status cache now timeout info door.door_id .opened
        true).cache
        = cacheSet (purgeExpired cache now timeout) door.door_id
            { door_id := door.door_id, activated := now,
              transition_status := .opening, target_status := .opened } := by
      rw [hres]
    refine ⟨by rw [hres], ?_⟩
    intro now2
    constructor
    · intro h2
      rw [hcache, get_door_statuses_lookup _ now2 timeout info true door hmem hnodup,
        cacheGet_purge_set]
      simp [h2, hclosed]
    · intro h2
      have hnotlt : ¬ (now2 - now < timeout) := by omega
      rw [hcache, get_door_statuses_lookup _ now2 timeout info true door hmem hnodup,
        cacheGet_purge_set]
      simp [hnotlt, hclosed]

/-- Witness for C2 at concrete inputs: after opening the closed configured
door 1 of `egInfo` at time 0 with a 55-unit timeout, a read at time 10
reports the synthetic `opening` while the device still reports `closed`, and
a read at time 100 reports the raw `closed` again. -/
theorem c2_transitional_status_read_witness :
    statusGet (_get_door_statuses
        (_async_set_door_status [] 0 55 egInfo egDoorClosed.door_id .opened true).cache
        10 55 egInfo true).2 egDoorClosed.door_id
      = some (.transitional .opening) ∧
    statusGet (_get_door_statuses
        (_async_set_door_status [] 0 55 egInfo egDoorClosed.door_id .opened true).cache
        100 55 egInfo true).2 egDoorClosed.door_id
      = some (.raw .closed) :=
  ⟨(((c2_transitional_status_read [] 0 55 egInfo egDoorClosed (by decide)
        (by decide)).2.2.2.2.2 (by decide) (by decide)).2 10).1 (by decide),
   (((c2_transitional_status_read [] 0 55 egInfo egDoorClosed (by decide)
        (by decide)).2.2.2.2.2 (by decide) (by decide)).2 100).2 (by decide)⟩

/-- Claim C3: `_async_set_door_status` returns "not sent" without issuing the
ACTIVATE command when the requested target is `undefined` (making no network
call at all), when the door is absent from the computed statuses (which
happens exactly when its id is not among the configured doors), or when the
door's current status — transitional when those are considered — is already
in the target's result set (equal to the target or heading toward it); in
the remaining case it issues ACTIVATE, records a transition entry with
`opening` if the target is `opened` and `closing` otherwise, and returns
"sent". -/
theorem c3_set_door_status (cache : TransitionCache) (now timeout : Int)
    (info : GogoGate2InfoResponse) (door_id : Int) (target : DoorStatus)
    (consider : Bool) :
    (target = .undefined →
      _async_set_door_status cache now timeout info door_id target consider
        = { sent := false, info_fetched := false, activate_called := false,
            cache := cache }) ∧
    (target ≠ .undefined →
      (statusGet (_get_door_statuses cache now timeout info consider).2 door_id
          = none →
        _async_set_door_status cache now timeout info door_id target consider
          = { sent := false, info_fetched := true, activate_called := false,
              cache := purgeExpired cache now timeout }) ∧
      (∀ cur, statusGet (_get_door_statuses cache now timeout info consider).2 door_id
          = some cur →
        (cur ∈ (if target = .opened then OPEN_DOOR_STATUSES else CLOSE_DOOR_STATUSES) →
          _async_set_door_status cache now timeout info door_id target consider
            = { sent := false, info_fetched := true, activate_called := false,
                cache := purgeExpired cache now timeout }) ∧
        (cur ∉ (if target = .opened then OPEN_DOOR_STATUSES else CLOSE_DOOR_STATUSES) →
          _async_set_door_status cache now timeout info door_id target consider
            = { sent := true, info_fetched := true, activate_called := true,
                cache := cacheSet (purgeExpired cache now timeout) door_id
                  { door_id := door_id, activated := now,
                    transition_status :=
                      if target = .opened then .opening else .closing,
                    target_status := target } }))) ∧
    (statusGet (_get_door_statuses cache now timeout info consider).2 door_id = none ↔
      door_id ∉ (get_configured_doors info).map (·.door_id)) := by
  refine ⟨?_, ?_, ?_⟩
  · intro h
    simp [_async_set_door_status, h]
  · intro hne
    constructor
    · intro hnone
      simp [_async_set_door_status, hne, hnone, get_door_statuses_fst]
    · intro cur hcur
      constructor
      · intro hmem2
        simp [_async_set_door_status, hne, hcur, hmem2, get_door_statuses_fst]
      · intro hmem2
        simp [_async_set_door_status, hne, hcur, hmem2, get_door_statuses_fst]
  · exact statusGet_map_doors_none
      (fun d =>
        match cacheGet (purgeExpired cache now timeout) d.door_id with
        | some ts =>
          if consider ∧ ts.target_status ≠ d.status then
            .transitional ts.transition_status
          else .raw d.status
        | none => .raw d.status)
      door_id

/-- Witness for C3 at concrete inputs over `egInfo` (doors: closed, opened,
unconfigured): `undefined` target, unknown door 8, already-open door 2, and
a genuine open of closed door 1. -/
theorem c3_set_door_status_witness :
    _async_set_door_status [] 0 55 egInfo 1 .undefined true
      = { sent := false, info_fetched := false, activate_called := false,
          cache := [] } ∧
    _async_set_door_status [] 0 55 egInfo 8 .closed true
      = { sent := false, info_fetched := true, activate_called := false,
          cache := purgeExpired [] 0 55 } ∧
    _async_set_door_status [] 0 55 egInfo 2 .opened true
      = { sent := false, info_fetched := true, activate_called := false,
          cache := purgeExpired [] 0 55 } ∧
    _async_set_door_status [] 0 55 egInfo 1 .opened true
      = { sent := true, info_fetched := true, activate_called := true,
          cache := cacheSet (purgeExpired [] 0 55) 1
            { door_id := 1, activated := 0, transition_status := .opening,
              target_status := .opened } } :=
  ⟨(c3_set_door_status [] 0 55 egInfo 1 .undefined true).1 rfl,
   ((c3_set_door_status [] 0 55 egInfo 8 .closed true).2.1 (by decide)).1 (by decide),
   (((c3_set_door_status [] 0 55 egInfo 2 .opened true).2.1 (by decide)).2
     (.raw .opened) (by decide)).1 (by decide),
   (((c3_set_door_status [] 0 55 egInfo 1 .opened true).2.1 (by decide)).2
     (.raw .closed) (by decide)).2 (by decide)⟩

end Gogogate2
